import Mathlib

/-! Verification development for the Vehicle_Occlusion repository.

The embedding covers the parts of the code the claims are about:
* `backend/src/services/dataService.js` — the JSON-file record store
  (`readData`, `writeData`, the Detection CRUD operations, `getStats`,
  `calculateOcclusionStats`, `calculateVehicleStats`);
* the file-backed `Detection` model class (constructor, `save`,
  `updateStatus`, `findById`);
* `backend/src/routes/detectionRoutes.js` — the analyze route handler and
  the background `processVehicleDetection` job.

JavaScript records are modelled as association lists of string keys and
`JsVal` values; JS numbers are modelled as rationals; the impure inputs
(uuid, current time, `Date` parsing, write success/failure, the backing
file's readability) are passed as explicit parameters. -/

namespace VehicleOcclusion

/-- A JavaScript runtime value as it appears in the JSON-backed collections. -/
inductive JsVal : Type where
  | vNull : JsVal
  | vUndef : JsVal
  | vBool : Bool → JsVal
  | vNum : ℚ → JsVal
  | vStr : String → JsVal
  | vArr : List JsVal → JsVal
  | vObj : List (String × JsVal) → JsVal

/-- A JavaScript object: an ordered association list of fields. -/
abbrev JsObj := List (String × JsVal)

/-- JavaScript truthiness: `null`, `undefined`, `false`, `0` and `""` are
falsy, everything else (including every array and object) is truthy. -/
def truthy : JsVal → Bool
  | .vNull => false
  | .vUndef => false
  | .vBool b => b
  | .vNum q => if q = 0 then false else true
  | .vStr s => if s = "" then false else true
  | .vArr _ => true
  | .vObj _ => true

/-- Property read on an object: first field with the given key, `undefined`
when absent (JS objects cannot hold a key twice, so first = only). -/
def JsObj.get : JsObj → String → JsVal
  | [], _ => .vUndef
  | p :: t, k => if p.1 = k then p.2 else JsObj.get t k

/-- Last binding of a key in a field list (the binding a JS object literal
with repeated spreads would end up with). -/
def JsObj.lookupLast : JsObj → String → Option JsVal
  | [], _ => none
  | p :: t, k =>
    match JsObj.lookupLast t k with
    | some v => some v
    | none => if p.1 = k then some p.2 else none

/-- Replace every binding of a key (used by `JsObj.set` when the key exists;
on a well-formed object there is exactly one binding). -/
def JsObj.replaceKey : JsObj → String → JsVal → JsObj
  | [], _, _ => []
  | p :: t, k, v => (if p.1 = k then (k, v) else p) :: JsObj.replaceKey t k v

/-- JS property assignment `o[k] = v` / adding `k: v` to an object literal:
overwrite in place when the key exists, append otherwise. -/
def JsObj.set (fs : JsObj) (k : String) (v : JsVal) : JsObj :=
  if fs.any (fun p => p.1 = k) then JsObj.replaceKey fs k v else fs ++ [(k, v)]

/-- Object spread `{...a, ...b}`: fields of `b` assigned over `a` in order. -/
def JsObj.spread (a b : JsObj) : JsObj :=
  b.foldl (fun acc p => JsObj.set acc p.1 p.2) a

/-- Fields of a value when it is an object, `[]` otherwise. -/
def ofields : JsVal → JsObj
  | .vObj fs => fs
  | _ => []

/-- Property read on an arbitrary value (non-objects have no own fields). -/
def oget (v : JsVal) (k : String) : JsVal := JsObj.get (ofields v) k

/-- Elements of a value when it is an array, `[]` otherwise. -/
def getArr : JsVal → List JsVal
  | .vArr xs => xs
  | _ => []

/-- JS strict equality `===` restricted to the comparisons the code makes
(identifiers and other primitives); distinct containers are never `===`. -/
def strictEq : JsVal → JsVal → Bool
  | .vNull, .vNull => true
  | .vUndef, .vUndef => true
  | .vBool a, .vBool b => a = b
  | .vNum a, .vNum b => a = b
  | .vStr a, .vStr b => a = b
  | _, _ => false

/-- JS `a || b` (value-level or, driven by truthiness). -/
def jsOr (v d : JsVal) : JsVal := if truthy v then v else d

/-- First index matched by a predicate, as JS `Array.prototype.findIndex`
(modelled with `Option` instead of `-1`). -/
def findIndex (p : α → Bool) : List α → Option ℕ
  | [] => none
  | x :: t => if p x then some 0 else (findIndex p t).map Nat.succ

/-- The backing JSON file of the detections collection: either readable with
a list of records, or unreadable/corrupt (`fs.readJson` throws). -/
inductive Medium : Type where
  | good : List JsVal → Medium
  | corrupt : Medium

/-- Outcome of one `fs.writeJson` call, injected as a parameter. -/
inductive WriteOutcome : Type where
  | success : WriteOutcome
  | failure : WriteOutcome
deriving DecidableEq

/-- `dataService.readData` (dataService.js:36-43): returns the parsed file;
any read error is caught, logged, and turned into the empty array. -/
def readData : Medium → List JsVal
  | .good rs => rs
  | .corrupt => []

/-- `dataService.writeData` (dataService.js:45-53): writes the whole
collection, returning `true` on success; a write error is caught, logged,
and turned into `false` (the failing write leaves the previous contents). -/
def writeData (m : Medium) (data : List JsVal) : WriteOutcome → Medium × Bool
  | .success => (.good data, true)
  | .failure => (m, false)

/-- `dataService.getDetections` (dataService.js:154-156). -/
def getDetections (m : Medium) : List JsVal := readData m

/-- `dataService.getDetectionById` (dataService.js:158-161): `Array.find`
over the collection, `undefined` when no record matches. -/
def getDetectionById (m : Medium) (idv : JsVal) : JsVal :=
  ((getDetections m).find? (fun d => strictEq (oget d "id") idv)).getD (.vUndef)

/-- The load half of `dataService.createDetection` (dataService.js:174). -/
def createDetectionRead (m : Medium) : List JsVal := getDetections m

/-- The object literal `{ id: uuidv4(), ...detectionData, createdAt,
updatedAt }` of `dataService.createDetection` (dataService.js:175-180):
the fresh id first, then the caller data spread over it (so a caller-supplied
`id` overrides the fresh one), then the server timestamps. -/
def newDetectionRec (freshId now : String) (data : JsObj) : JsVal :=
  .vObj (JsObj.set (JsObj.set (JsObj.spread [("id", JsVal.vStr freshId)] data)
    "createdAt" (JsVal.vStr now)) "updatedAt" (JsVal.vStr now))

/-- The build-and-replace half of `dataService.createDetection`
(dataService.js:175-183): the new record appended to the loaded snapshot and
written back; the new record is returned regardless of the write outcome. -/
def createDetectionWrite (m : Medium) (snapshot : List JsVal)
    (freshId now : String) (data : JsObj) (w : WriteOutcome) : Medium × JsVal :=
  ((writeData m (snapshot ++ [newDetectionRec freshId now data]) w).1,
   newDetectionRec freshId now data)

/-- `dataService.createDetection` (dataService.js:173-184): read the whole
collection, append the new record, write the whole collection back. -/
def createDetection (m : Medium) (freshId now : String) (data : JsObj)
    (w : WriteOutcome) : Medium × JsVal :=
  createDetectionWrite m (createDetectionRead m) freshId now data w

/-- The merged record `{...detections[detectionIndex], ...updateData,
updatedAt: now}` of `dataService.updateDetection` (dataService.js:191-195). -/
def mergedRec (m : Medium) (updateData : JsObj) (now : String) (i : ℕ) : JsVal :=
  .vObj (JsObj.set
    (JsObj.spread (ofields ((getDetections m).getD i .vUndef)) updateData)
    "updatedAt" (.vStr now))

/-- `dataService.updateDetection` (dataService.js:186-198): locate the record
by id, overwrite it in place with the merged record, write the collection
back, and return the merged record (`null` when the id is absent).
`dataService.updateUser` (dataService.js:83-95) and `updateUpload`
(dataService.js:132-144) are the same code over their own collections. -/
def updateDetection (m : Medium) (idv : JsVal) (updateData : JsObj)
    (now : String) (w : WriteOutcome) : Medium × JsVal :=
  match findIndex (fun d => strictEq (oget d "id") idv) (getDetections m) with
  | none => (m, JsVal.vNull)
  | some i =>
    ((writeData m ((getDetections m).set i (mergedRec m updateData now i)) w).1,
     mergedRec m updateData now i)

/-- `dataService.calculateOcclusionStats` counters (dataService.js:236-249):
for each detection with a truthy top-level `vehicles` field, every element
bumps `totalVehicles` and every element with a truthy top-level `occluded`
field bumps `occludedVehicles`. -/
def occlusionCounts (detections : List JsVal) : ℕ × ℕ :=
  detections.foldl
    (fun acc d =>
      if truthy (oget d "vehicles") then
        (getArr (oget d "vehicles")).foldl
          (fun acc2 v => (acc2.1 + 1, if truthy (oget v "occluded") then acc2.2 + 1 else acc2.2))
          acc
      else acc)
    (0, 0)

/-- JS `Number.prototype.toFixed(2)` on the nonnegative rates the code
produces: round to the nearest hundredth and print two decimals. -/
def toFixed2 (q : ℚ) : String :=
  let n : ℤ := ⌊q * 100 + 1 / 2⌋
  let whole := n / 100
  let frac := (n % 100).toNat
  toString whole ++ "." ++ (if frac < 10 then "0" else "") ++ toString frac

/-- `dataService.calculateOcclusionStats` (dataService.js:236-256): the
counters plus `occlusionRate`, a `toFixed(2)` string when `totalVehicles > 0`
and the number `0` otherwise. -/
def calculateOcclusionStats (detections : List JsVal) : JsVal :=
  let c := occlusionCounts detections
  JsVal.vObj
    [("totalVehicles", .vNum c.1),
     ("occludedVehicles", .vNum c.2),
     ("occlusionRate",
       if 0 < c.1 then .vStr (toFixed2 ((c.2 : ℚ) / (c.1 : ℚ) * 100)) else .vNum 0)]

/-- JS string coercion of an object key, for `vehicleTypes[vehicle.type]`
(the data always carries string types; primitives coerce as JS does). -/
def jsKeyString : JsVal → String
  | .vStr s => s
  | .vBool b => toString b
  | .vNull => "null"
  | .vUndef => "undefined"
  | .vNum q => toString q
  | .vArr _ => ""
  | .vObj _ => "[object Object]"

/-- One step of `vehicleTypes[t] = (vehicleTypes[t] || 0) + 1`. -/
def bumpType (acc : List (String × ℕ)) (t : String) : List (String × ℕ) :=
  if acc.any (fun p => p.1 = t) then
    acc.map (fun p => if p.1 = t then (t, p.2 + 1) else p)
  else acc ++ [(t, 1)]

/-- `dataService.calculateVehicleStats` (dataService.js:224-234). -/
def calculateVehicleStats (detections : List JsVal) : List (String × ℕ) :=
  detections.foldl
    (fun acc d =>
      if truthy (oget d "vehicles") then
        (getArr (oget d "vehicles")).foldl
          (fun acc2 v => bumpType acc2 (jsKeyString (oget v "type"))) acc
      else acc)
    []

/-- `dataService.getStats` (dataService.js:208-222) over the two loaded
collections; `userId` is `null` or a user identifier value. -/
def getStats (uploads detections : List JsVal) (userId : JsVal) : JsVal :=
  let userUploads :=
    if truthy userId then uploads.filter (fun u => strictEq (oget u "userId") userId)
    else uploads
  let userDetections :=
    if truthy userId then detections.filter (fun d => strictEq (oget d "userId") userId)
    else detections
  JsVal.vObj
    [("totalUploads", .vNum userUploads.length),
     ("totalDetections", .vNum userDetections.length),
     ("recentActivity", .vArr ((userUploads.drop (userUploads.length - 10)).reverse)),
     ("vehicleStats", .vObj ((calculateVehicleStats userDetections).map
        (fun p => (p.1, JsVal.vNum p.2)))),
     ("occlusionStats", calculateOcclusionStats userDetections)]

/-- The default `results` object of the `Detection` constructor
(Detection model, part_001:12-19). -/
def defaultResults : JsVal :=
  JsVal.vObj
    [("totalVehicles", .vNum 0), ("occludedVehicles", .vNum 0),
     ("occlusionPercentage", .vNum 0), ("vehicles", .vArr []),
     ("imageMetadata", .vObj []), ("processingMetadata", .vObj [])]

/-- The `Detection` constructor (part_001:4-25): copy the listed fields and
apply the `||` defaults; any other key of the input data is dropped. -/
def detectionCtor (data : JsVal) : JsObj :=
  [("id", oget data "id"),
   ("userId", oget data "userId"),
   ("uploadId", oget data "uploadId"),
   ("status", jsOr (oget data "status") (.vStr "pending")),
   ("processingStartTime", oget data "processingStartTime"),
   ("processingEndTime", oget data "processingEndTime"),
   ("processingDuration", oget data "processingDuration"),
   ("results", jsOr (oget data "results") defaultResults),
   ("annotations", jsOr (oget data "annotations") (.vArr [])),
   ("errorDetails", jsOr (oget data "errorDetails") (.vObj [])),
   ("metrics", jsOr (oget data "metrics") (.vObj [])),
   ("createdAt", oget data "createdAt"),
   ("updatedAt", oget data "updatedAt")]

/-- `Detection.findById` (part_001:65-68): `getDetectionById`, then the
constructor when a record was found (`null` otherwise). -/
def Detection.findById (m : Medium) (idv : JsVal) : Option JsObj :=
  let d := getDetectionById m idv
  if truthy d then some (detectionCtor d) else none

/-- Numeric value of a stored timestamp under a given `Date` parser
(`new Date(x) − new Date(y)` subtraction operands); `Date` parsing is a JS
builtin, passed in as a parameter. -/
def dateNum (parseDate : String → ℚ) : JsVal → ℚ
  | .vStr s => parseDate s
  | .vNum q => q
  | _ => 0

/-- Count of `this.results.vehicles.filter(v => v.occlusion &&
v.occlusion.isOccluded)` (part_001:99-101). -/
def countOccluded (vs : List JsVal) : ℕ :=
  (vs.filter (fun v => truthy (oget v "occlusion")
    && truthy (oget (oget v "occlusion") "isOccluded"))).length

/-- The duration section of `Detection.save` (part_001:92-95): compute
`processingDuration` when both timestamps are truthy. -/
def recomputeDuration (parseDate : String → ℚ) (self : JsObj) : JsObj :=
  if truthy (JsObj.get self "processingStartTime")
      && truthy (JsObj.get self "processingEndTime") then
    JsObj.set self "processingDuration"
      (.vNum (dateNum parseDate (JsObj.get self "processingEndTime")
        - dateNum parseDate (JsObj.get self "processingStartTime")))
  else self

/-- The occlusion section of `Detection.save` (part_001:97-105): when
`this.results`, `this.results.vehicles` and `vehicles.length > 0` all hold,
overwrite `occludedVehicles` with the occluded count and
`occlusionPercentage` with count / vehicle-list length × 100. The
denominator is the vehicle list length; `totalVehicles` is untouched, and
nothing is recomputed when the vehicle list is empty or missing. -/
def recomputeOcclusion (self : JsObj) : JsObj :=
  if truthy (JsObj.get self "results")
      && truthy (oget (JsObj.get self "results") "vehicles")
      && !(getArr (oget (JsObj.get self "results") "vehicles")).isEmpty then
    JsObj.set self "results"
      (.vObj (JsObj.set
        (JsObj.set (ofields (JsObj.get self "results")) "occludedVehicles"
          (.vNum (countOccluded (getArr (oget (JsObj.get self "results") "vehicles")))))
        "occlusionPercentage"
        (.vNum ((countOccluded (getArr (oget (JsObj.get self "results") "vehicles")) : ℚ)
          / (((getArr (oget (JsObj.get self "results") "vehicles")).length : ℚ)) * 100))))
  else self

/-- The derived-field section of `Detection.save` (part_001:92-105):
duration first, then the occlusion recomputation. -/
def recomputeStep (parseDate : String → ℚ) (self : JsObj) : JsObj :=
  recomputeOcclusion (recomputeDuration parseDate self)

/-- The `detectionData` object built by `Detection.save` (part_001:107-118):
the ten payload fields of the instance, never `id` or `createdAt`. -/
def saveData (self : JsObj) : JsObj :=
  [("userId", JsObj.get self "userId"),
   ("uploadId", JsObj.get self "uploadId"),
   ("status", JsObj.get self "status"),
   ("processingStartTime", JsObj.get self "processingStartTime"),
   ("processingEndTime", JsObj.get self "processingEndTime"),
   ("processingDuration", JsObj.get self "processingDuration"),
   ("results", JsObj.get self "results"),
   ("annotations", JsObj.get self "annotations"),
   ("errorDetails", JsObj.get self "errorDetails"),
   ("metrics", JsObj.get self "metrics")]

/-- `Detection.save` (part_001:91-131): recompute derived fields, then either
`updateDetection` (when `this.id` is truthy, `Object.assign`-ing the merged
record back onto `this` unless the id was not found) or `createDetection`
(assigning the new record onto `this`). Returns the instance and the medium. -/
def Detection.save (parseDate : String → ℚ) (self : JsObj) (m : Medium)
    (freshId now : String) (w : WriteOutcome) : JsObj × Medium :=
  if truthy (JsObj.get (recomputeStep parseDate self) "id") then
    match updateDetection m (JsObj.get (recomputeStep parseDate self) "id")
        (saveData (recomputeStep parseDate self)) now w with
    | (m2, .vObj fs) => (JsObj.spread (recomputeStep parseDate self) fs, m2)
    | (m2, _) => (recomputeStep parseDate self, m2)
  else
    (JsObj.spread (recomputeStep parseDate self)
      (ofields (createDetection m freshId now (saveData (recomputeStep parseDate self)) w).2),
     (createDetection m freshId now (saveData (recomputeStep parseDate self)) w).1)

/-- The terminal status list of `Detection.updateStatus` (part_001:150). -/
def terminalStatuses : List String := ["completed", "failed", "cancelled"]

/-- The timestamp stamping of `Detection.updateStatus` (part_001:148-152):
stamp `processingStartTime` on `processing` (when unset), else stamp
`processingEndTime` on a terminal status (when unset). -/
def statusStamp (self1 : JsObj) (status now : String) : JsObj :=
  if status = "processing" && !truthy (JsObj.get self1 "processingStartTime") then
    JsObj.set self1 "processingStartTime" (.vStr now)
  else if terminalStatuses.contains status
      && !truthy (JsObj.get self1 "processingEndTime") then
    JsObj.set self1 "processingEndTime" (.vStr now)
  else self1

/-- The instance mutation of `Detection.updateStatus` (part_001:146-156):
set the status unconditionally, stamp the timestamps, optionally replace
`errorDetails`. There is no transition validation of any kind. -/
def updateStatusSelf (self : JsObj) (status : String) (errorDetails : JsVal)
    (now : String) : JsObj :=
  if truthy errorDetails then
    JsObj.set (statusStamp (JsObj.set self "status" (.vStr status)) status now)
      "errorDetails" errorDetails
  else statusStamp (JsObj.set self "status" (.vStr status)) status now

/-- `Detection.updateStatus` (part_001:146-159): mutate the instance, then
`save`. -/
def Detection.updateStatus (parseDate : String → ℚ) (self : JsObj)
    (status : String) (errorDetails : JsVal) (m : Medium)
    (freshId now : String) (w : WriteOutcome) : JsObj × Medium :=
  Detection.save parseDate (updateStatusSelf self status errorDetails now)
    m freshId now w

/-- The static methods the file-backed `Detection` class actually defines
(part_001:64-88, 162). The Mongoose-style `findOne`, `find`,
`countDocuments` and `findByIdAndDelete` used by `detectionRoutes.js` are
not among them. -/
def detectionStaticMethods : List String :=
  ["findById", "findByUserId", "findByUploadId", "findAll", "create",
   "createSampleDetection"]

/-- The static methods the file-backed `Upload` class actually defines
(models/Upload.js:56-82). `findOne` is not among them. -/
def uploadStaticMethods : List String :=
  ["findById", "findByUserId", "findAll", "create"]

/-- Outcome of one Express handler run: a response, or an error thrown into
`asyncHandler` and mapped by `errorHandler` (a thrown `TypeError` has none of
the recognized names/codes, so it becomes a 500 response). -/
inductive RouteOutcome : Type where
  | response : ℕ → JsVal → RouteOutcome
  | thrown : String → RouteOutcome

/-- `router.post('/analyze')` (detectionRoutes.js:11-76). After the
`uploadId` presence check the handler calls `Upload.findOne(...)`
(line 22) and then `Detection.findOne({ uploadedFile: uploadId })`
(line 35). Neither file-backed model class defines `findOne`, so in this
repository the call throws `TypeError: ... is not a function` at the first
lookup and nothing after it runs. The remainder of the handler (duplicate
check, record creation, job start) is not expressible over the models as
written; it is abstracted as the continuation `rest`, which the theorems
quantify over and which is provably never invoked. -/
def analyzeRoute (m : Medium) (uploadIdVal : JsVal)
    (rest : Unit → RouteOutcome × Medium) : RouteOutcome × Medium :=
  if !truthy uploadIdVal then
    (.response 400 (JsVal.vObj
      [("success", .vBool false), ("message", .vStr "Upload ID is required")]), m)
  else if !uploadStaticMethods.contains "findOne" then
    (.thrown "TypeError: Upload.findOne is not a function", m)
  else if !detectionStaticMethods.contains "findOne" then
    (.thrown "TypeError: Detection.findOne is not a function", m)
  else rest ()

/-- The `mockResults` object of `processVehicleDetection`
(detectionRoutes.js:243-304): three vehicles, one of them occluded; every
vehicle carries `occlusion.isOccluded` and no top-level `occluded` field. -/
def mockResultsObj : JsObj :=
  [("totalVehicles", .vNum 3),
   ("occludedVehicles", .vNum 1),
   ("occlusionPercentage", .vNum (3333 / 100)),
   ("vehicles", .vArr
     [.vObj
       [("id", .vStr "vehicle_1"), ("type", .vStr "car"), ("confidence", .vNum (95 / 100)),
        ("boundingBox", .vObj [("x", .vNum 100), ("y", .vNum 150),
          ("width", .vNum 200), ("height", .vNum 150)]),
        ("occlusion", .vObj [("isOccluded", .vBool false),
          ("occlusionLevel", .vStr "none"), ("occlusionPercentage", .vNum 0)]),
        ("features", .vObj [("color", .vStr "blue"), ("size", .vStr "medium"),
          ("orientation", .vNum 0)])],
      .vObj
       [("id", .vStr "vehicle_2"), ("type", .vStr "truck"), ("confidence", .vNum (88 / 100)),
        ("boundingBox", .vObj [("x", .vNum 350), ("y", .vNum 120),
          ("width", .vNum 300), ("height", .vNum 200)]),
        ("occlusion", .vObj [("isOccluded", .vBool true),
          ("occlusionLevel", .vStr "partial"), ("occlusionPercentage", .vNum 35),
          ("occludedBy", .vArr [.vStr "vehicle_3"])]),
        ("features", .vObj [("color", .vStr "white"), ("size", .vStr "large"),
          ("orientation", .vNum 15)])],
      .vObj
       [("id", .vStr "vehicle_3"), ("type", .vStr "car"), ("confidence", .vNum (92 / 100)),
        ("boundingBox", .vObj [("x", .vNum 500), ("y", .vNum 180),
          ("width", .vNum 180), ("height", .vNum 140)]),
        ("occlusion", .vObj [("isOccluded", .vBool false),
          ("occlusionLevel", .vStr "none"), ("occlusionPercentage", .vNum 0)]),
        ("features", .vObj [("color", .vStr "red"), ("size", .vStr "medium"),
          ("orientation", .vNum (-10))])]]),
   ("processingMetadata", .vObj
     [("modelVersion", .vStr "v1.0.0"),
      ("algorithm", .vStr "YOLO + Custom Occlusion Analysis"),
      ("computeTime", .vNum 4850), ("memoryUsage", .vNum 1024)])]

/-- The `errorDetails` object recorded by the catch block of
`processVehicleDetection` (detectionRoutes.js:322-325). -/
def processingErrorDetails (msg : String) : JsVal :=
  .vObj [("code", .vStr "PROCESSING_ERROR"), ("message", .vStr msg)]

/-- The `processing` mutation of `processVehicleDetection`
(detectionRoutes.js:234-236): set status and start time on the instance. -/
def jobProcessingSelf (det : JsObj) (tStart : String) : JsObj :=
  JsObj.set (JsObj.set det "status" (.vStr "processing"))
    "processingStartTime" (.vStr tStart)

/-- The `completed` mutation of `processVehicleDetection`
(detectionRoutes.js:307-309): set status and end time, then merge the
analysis results over the existing `results` object. -/
def jobCompletedSelf (det2 : JsObj) (mockResults : JsObj) (tEnd : String) : JsObj :=
  JsObj.set
    (JsObj.set (JsObj.set det2 "status" (.vStr "completed"))
      "processingEndTime" (.vStr tEnd))
    "results"
    (.vObj (JsObj.spread
      (ofields (JsObj.get
        (JsObj.set (JsObj.set det2 "status" (.vStr "completed"))
          "processingEndTime" (.vStr tEnd)) "results"))
      mockResults))

/-- The `failed` mutation of the catch block of `processVehicleDetection`
(detectionRoutes.js:320-325): set status, end time and error details. -/
def jobFailedSelf (detF : JsObj) (msg tFail : String) : JsObj :=
  JsObj.set (JsObj.set (JsObj.set detF "status" (.vStr "failed"))
    "processingEndTime" (.vStr tFail)) "errorDetails" (processingErrorDetails msg)

/-- `processVehicleDetection` (detectionRoutes.js:229-329). The analysis step
is abstracted as `analyzeOutcome`: `.ok results` is the successful result
production (in the source, always `mockResultsObj`) and `.error msg` is an
error raised at that point with message `msg`. On success the record is
driven to `completed` with the results merged in; a raised error is caught,
the detection is refetched and driven to `failed` with `errorDetails` and
`processingEndTime` set — the error is never rethrown, so the background
task always terminates normally (the function is total by construction).
`tStart`/`tEnd`/`tFail` are the timestamps the three `new Date()` calls
produce, and `freshId` feeds the (never-needed) create branch of `save`. -/
def processVehicleDetection (parseDate : String → ℚ) (m : Medium)
    (detId : JsVal) (analyzeOutcome : Except String JsObj)
    (tStart tEnd tFail freshId : String) (w : WriteOutcome) : Medium :=
  match Detection.findById m detId with
  | none => m
  | some det =>
    let r1 := Detection.save parseDate (jobProcessingSelf det tStart)
      m freshId tStart w
    match analyzeOutcome with
    | .ok mockResults =>
      (Detection.save parseDate (jobCompletedSelf r1.1 mockResults tEnd)
        r1.2 freshId tEnd w).2
    | .error msg =>
      match Detection.findById r1.2 detId with
      | none => r1.2
      | some detF =>
        (Detection.save parseDate (jobFailedSelf detF msg tFail)
          r1.2 freshId tFail w).2

/-! Lookup lemmas for the object model. -/

theorem JsObj.replaceKey_of_not_any (fs : JsObj) (k : String) (v : JsVal)
    (h : fs.any (fun p => p.1 = k) = false) : JsObj.replaceKey fs k v = fs := by
  induction fs with
  | nil => rfl
  | cons p t ih =>
    by_cases hp : p.1 = k
    · simp [List.any_cons, hp] at h
    · simp only [List.any_cons, Bool.or_eq_false_iff] at h
      simp [JsObj.replaceKey, hp, ih h.2]

theorem JsObj.get_of_not_any (fs : JsObj) (k : String)
    (h : fs.any (fun p => p.1 = k) = false) : JsObj.get fs k = .vUndef := by
  induction fs with
  | nil => rfl
  | cons p t ih =>
    by_cases hp : p.1 = k
    · simp [List.any_cons, hp] at h
    · simp only [List.any_cons, Bool.or_eq_false_iff] at h
      simp [JsObj.get, hp, ih h.2]

theorem JsObj.lookupLast_of_not_any (fs : JsObj) (k : String)
    (h : fs.any (fun p => p.1 = k) = false) : JsObj.lookupLast fs k = none := by
  induction fs with
  | nil => rfl
  | cons p t ih =>
    by_cases hp : p.1 = k
    · simp [List.any_cons, hp] at h
    · simp only [List.any_cons, Bool.or_eq_false_iff] at h
      simp [JsObj.lookupLast, hp, ih h.2]

theorem JsObj.get_replaceKey_self (fs : JsObj) (k : String) (v : JsVal)
    (h : fs.any (fun p => p.1 = k) = true) :
    JsObj.get (JsObj.replaceKey fs k v) k = v := by
  induction fs with
  | nil => simp at h
  | cons p t ih =>
    by_cases hp : p.1 = k
    · simp [JsObj.replaceKey, JsObj.get, hp]
    · simp only [List.any_cons, hp] at h
      simp only [JsObj.replaceKey, if_neg hp]
      simp only [JsObj.get, if_neg hp]
      exact ih (by simpa using h)

theorem JsObj.get_replaceKey_ne (fs : JsObj) (k k2 : String) (v : JsVal)
    (hk : ¬k2 = k) : JsObj.get (JsObj.replaceKey fs k v) k2 = JsObj.get fs k2 := by
  have hk2 : ¬k = k2 := fun hx => hk hx.symm
  induction fs with
  | nil => rfl
  | cons p t ih =>
    by_cases hp : p.1 = k
    · have hp2 : ¬p.1 = k2 := by rw [hp]; exact hk2
      simp [JsObj.replaceKey, JsObj.get, hp, hp2, hk2, ih]
    · by_cases hq : p.1 = k2
      · simp [JsObj.replaceKey, JsObj.get, hp, hq, hk]
      · simp [JsObj.replaceKey, JsObj.get, hp, hq, ih]

theorem JsObj.get_append_single_self (fs : JsObj) (k : String) (v : JsVal)
    (h : fs.any (fun p => p.1 = k) = false) :
    JsObj.get (fs ++ [(k, v)]) k = v := by
  induction fs with
  | nil => simp [JsObj.get]
  | cons p t ih =>
    by_cases hp : p.1 = k
    · simp [List.any_cons, hp] at h
    · simp only [List.any_cons, Bool.or_eq_false_iff] at h
      simp only [List.cons_append, JsObj.get, if_neg hp]
      exact ih h.2

theorem JsObj.get_append_single_ne (fs : JsObj) (k k2 : String) (v : JsVal)
    (hk : ¬k2 = k) : JsObj.get (fs ++ [(k, v)]) k2 = JsObj.get fs k2 := by
  have hk2 : ¬k = k2 := fun hx => hk hx.symm
  induction fs with
  | nil => simp [JsObj.get, hk2]
  | cons p t ih =>
    by_cases hq : p.1 = k2
    · simp [JsObj.get, hq]
    · simp [JsObj.get, hq, ih]

theorem JsObj.get_set (fs : JsObj) (k k2 : String) (v : JsVal) :
    JsObj.get (JsObj.set fs k v) k2 = if k2 = k then v else JsObj.get fs k2 := by
  unfold JsObj.set
  by_cases hany : fs.any (fun p => p.1 = k) = true
  · rw [if_pos hany]
    by_cases hk : k2 = k
    · subst hk; rw [if_pos rfl]; exact JsObj.get_replaceKey_self fs k2 v hany
    · rw [if_neg hk]; exact JsObj.get_replaceKey_ne fs k k2 v hk
  · rw [if_neg hany]
    have hany2 : fs.any (fun p => p.1 = k) = false := by
      cases hx : fs.any (fun p => p.1 = k) with
      | true => exact absurd hx hany
      | false => rfl
    by_cases hk : k2 = k
    · subst hk; rw [if_pos rfl]; exact JsObj.get_append_single_self fs k2 v hany2
    · rw [if_neg hk]; exact JsObj.get_append_single_ne fs k k2 v hk

theorem JsObj.lookupLast_replaceKey_self (fs : JsObj) (k : String) (v : JsVal)
    (h : fs.any (fun p => p.1 = k) = true) :
    JsObj.lookupLast (JsObj.replaceKey fs k v) k = some v := by
  induction fs with
  | nil => simp at h
  | cons p t ih =>
    by_cases ht : t.any (fun p => p.1 = k) = true
    · have := ih ht
      by_cases hp : p.1 = k <;> simp [JsObj.replaceKey, JsObj.lookupLast, hp, this]
    · have ht2 : t.any (fun p => p.1 = k) = false := by
        cases hx : t.any (fun p => p.1 = k) with
        | true => exact absurd hx ht
        | false => rfl
      have hp : p.1 = k := by
        by_cases hp : p.1 = k
        · exact hp
        · simp [List.any_cons, hp, ht2] at h
      simp only [JsObj.replaceKey, if_pos hp, JsObj.replaceKey_of_not_any t k v ht2]
      simp [JsObj.lookupLast, JsObj.lookupLast_of_not_any t k ht2]

theorem JsObj.lookupLast_replaceKey_ne (fs : JsObj) (k k2 : String) (v : JsVal)
    (hk : ¬k2 = k) :
    JsObj.lookupLast (JsObj.replaceKey fs k v) k2 = JsObj.lookupLast fs k2 := by
  induction fs with
  | nil => rfl
  | cons p t ih =>
    by_cases hp : p.1 = k
    · have hk2 : ¬k = k2 := fun hx => hk hx.symm
      have hp2 : ¬p.1 = k2 := by rw [hp]; exact hk2
      simp [JsObj.replaceKey, JsObj.lookupLast, hp, hp2, ih, hk2]
    · simp [JsObj.replaceKey, JsObj.lookupLast, hp, ih]

theorem JsObj.lookupLast_append_single_self (fs : JsObj) (k : String) (v : JsVal) :
    JsObj.lookupLast (fs ++ [(k, v)]) k = some v := by
  induction fs with
  | nil => simp [JsObj.lookupLast]
  | cons p t ih => simp [JsObj.lookupLast, ih]

theorem JsObj.lookupLast_append_single_ne (fs : JsObj) (k k2 : String) (v : JsVal)
    (hk : ¬k2 = k) :
    JsObj.lookupLast (fs ++ [(k, v)]) k2 = JsObj.lookupLast fs k2 := by
  have hk2 : ¬k = k2 := fun hx => hk hx.symm
  induction fs with
  | nil => simp [JsObj.lookupLast, hk2]
  | cons p t ih => simp [JsObj.lookupLast, ih]

theorem JsObj.lookupLast_set (fs : JsObj) (k k2 : String) (v : JsVal) :
    JsObj.lookupLast (JsObj.set fs k v) k2 =
      if k2 = k then some v else JsObj.lookupLast fs k2 := by
  unfold JsObj.set
  by_cases hany : fs.any (fun p => p.1 = k) = true
  · rw [if_pos hany]
    by_cases hk : k2 = k
    · subst hk; rw [if_pos rfl]; exact JsObj.lookupLast_replaceKey_self fs k2 v hany
    · rw [if_neg hk]; exact JsObj.lookupLast_replaceKey_ne fs k k2 v hk
  · rw [if_neg hany]
    by_cases hk : k2 = k
    · subst hk; rw [if_pos rfl]; exact JsObj.lookupLast_append_single_self fs k2 v
    · rw [if_neg hk]; exact JsObj.lookupLast_append_single_ne fs k k2 v hk

theorem JsObj.get_spread (a b : JsObj) (k : String) :
    JsObj.get (JsObj.spread a b) k =
      match JsObj.lookupLast b k with
      | some v => v
      | none => JsObj.get a k := by
  induction b generalizing a with
  | nil => simp [JsObj.spread, JsObj.lookupLast]
  | cons p t ih =>
    have hstep : JsObj.spread a (p :: t) = JsObj.spread (JsObj.set a p.1 p.2) t := by
      simp [JsObj.spread]
    rw [hstep, ih]
    cases h : JsObj.lookupLast t k with
    | some v => simp [JsObj.lookupLast, h]
    | none =>
      simp only [JsObj.lookupLast, h, JsObj.get_set]
      by_cases hp : p.1 = k
      · simp [hp]
      · have : ¬k = p.1 := fun hx => hp hx.symm
        simp [hp, this]

theorem JsObj.lookupLast_spread (a b : JsObj) (k : String) :
    JsObj.lookupLast (JsObj.spread a b) k =
      match JsObj.lookupLast b k with
      | some v => some v
      | none => JsObj.lookupLast a k := by
  induction b generalizing a with
  | nil => simp [JsObj.spread, JsObj.lookupLast]
  | cons p t ih =>
    have hstep : JsObj.spread a (p :: t) = JsObj.spread (JsObj.set a p.1 p.2) t := by
      simp [JsObj.spread]
    rw [hstep, ih]
    cases h : JsObj.lookupLast t k with
    | some v => simp [JsObj.lookupLast, h]
    | none =>
      simp only [JsObj.lookupLast, h, JsObj.lookupLast_set]
      by_cases hp : p.1 = k
      · simp [hp]
      · have : ¬k = p.1 := fun hx => hp hx.symm
        simp [hp, this]

theorem JsObj.lookupLast_none_get (fs : JsObj) (k : String)
    (h : JsObj.lookupLast fs k = none) : JsObj.get fs k = .vUndef := by
  induction fs with
  | nil => rfl
  | cons p t ih =>
    by_cases hp : p.1 = k
    · simp only [JsObj.lookupLast, hp, if_pos rfl] at h
      cases hx : JsObj.lookupLast t k with
      | some v => rw [hx] at h; exact absurd h (by simp)
      | none => rw [hx] at h; exact absurd h (by simp)
    · simp only [JsObj.lookupLast, hp] at h
      cases hx : JsObj.lookupLast t k with
      | some v => rw [hx] at h; exact absurd h (by simp)
      | none => simp [JsObj.get, hp, ih hx]

theorem JsObj.lookupLast_nodup_get (fs : JsObj) (k : String) (v : JsVal)
    (hnd : (fs.map Prod.fst).Nodup)
    (h : JsObj.lookupLast fs k = some v) : JsObj.get fs k = v := by
  induction fs with
  | nil => simp [JsObj.lookupLast] at h
  | cons p t ih =>
    simp only [List.map_cons, List.nodup_cons] at hnd
    by_cases hp : p.1 = k
    · have hnot : t.any (fun q => q.1 = k) = false := by
        cases hx : t.any (fun q => q.1 = k) with
        | true =>
          rcases List.any_eq_true.mp hx with ⟨q, hq, hq2⟩
          have : p.1 ∈ t.map Prod.fst := by
            rw [hp, ← of_decide_eq_true hq2]
            exact List.mem_map_of_mem Prod.fst hq
          exact absurd this hnd.1
        | false => rfl
      simp only [JsObj.lookupLast, JsObj.lookupLast_of_not_any t k hnot, hp,
        if_pos rfl] at h
      simp only [JsObj.get, if_pos hp]
      exact Option.some.inj h
    · simp only [JsObj.lookupLast, hp] at h
      cases hx : JsObj.lookupLast t k with
      | some v2 =>
        rw [hx] at h
        simp only [JsObj.get, if_neg hp]
        exact ih hnd.2 (hx.trans (by simpa using h))
      | none => rw [hx] at h; simp at h

/-! List lemmas relating `find?`, `findIndex` and `set`. -/

theorem find?_of_findIndex {α : Type} (p : α → Bool) (l : List α) (i : ℕ) (d : α)
    (h : findIndex p l = some i) :
    p (l.getD i d) = true ∧ l.find? p = some (l.getD i d) := by
  induction l generalizing i with
  | nil => simp [findIndex] at h
  | cons x t ih =>
    by_cases hx : p x = true
    · simp only [findIndex, hx, if_pos rfl] at h
      have : i = 0 := (Option.some.inj h).symm
      subst this
      simp [List.getD, hx, List.find?_cons_of_pos _ hx]
    · have hx2 : p x = false := by
        cases hv : p x with
        | true => exact absurd hv hx
        | false => rfl
      simp only [findIndex, hx2, Bool.false_eq_true, if_false, Option.map_eq_some'] at h
      rcases h with ⟨j, hj, hij⟩
      subst hij
      rw [List.getD_cons_succ, List.find?_cons_of_neg _ (by simp [hx2])]
      exact ih j hj

theorem findIndex_of_find? {α : Type} (p : α → Bool) (l : List α) (x : α)
    (h : l.find? p = some x) :
    ∃ i, findIndex p l = some i ∧ (∀ d, l.getD i d = x) := by
  induction l with
  | nil => simp at h
  | cons y t ih =>
    by_cases hy : p y = true
    · rw [List.find?_cons_of_pos _ hy] at h
      refine ⟨0, ?_, ?_⟩
      · simp [findIndex, hy]
      · intro d; simp [List.getD, Option.some.inj h]
    · have hy2 : p y = false := by
        cases hv : p y with
        | true => exact absurd hv hy
        | false => rfl
      rw [List.find?_cons_of_neg _ (by simp [hy2])] at h
      rcases ih h with ⟨j, hj, hg⟩
      refine ⟨j + 1, ?_, ?_⟩
      · simp [findIndex, hy2, hj]
      · intro d; simpa [List.getD] using hg d

theorem set_getD_of_findIndex {α : Type} (p : α → Bool) (l : List α) (i : ℕ)
    (x d : α) (h : findIndex p l = some i) : (l.set i x).getD i d = x := by
  induction l generalizing i with
  | nil => simp [findIndex] at h
  | cons y t ih =>
    by_cases hy : p y = true
    · simp only [findIndex, hy, if_pos rfl] at h
      have : i = 0 := (Option.some.inj h).symm
      subst this
      simp [List.getD]
    · have hy2 : p y = false := by
        cases hv : p y with
        | true => exact absurd hv hy
        | false => rfl
      simp only [findIndex, hy2, Bool.false_eq_true, if_false, Option.map_eq_some'] at h
      rcases h with ⟨j, hj, hij⟩
      subst hij
      simpa [List.getD] using ih j hj

theorem findIndex_set_self {α : Type} (p : α → Bool) (l : List α) (i : ℕ) (x : α)
    (h : findIndex p l = some i) (hx : p x = true) :
    findIndex p (l.set i x) = some i := by
  induction l generalizing i with
  | nil => simp [findIndex] at h
  | cons y t ih =>
    by_cases hy : p y = true
    · simp only [findIndex, hy, if_pos rfl] at h
      have : i = 0 := (Option.some.inj h).symm
      subst this
      simp [findIndex, hx]
    · have hy2 : p y = false := by
        cases hv : p y with
        | true => exact absurd hv hy
        | false => rfl
      simp only [findIndex, hy2, Bool.false_eq_true, if_false, Option.map_eq_some'] at h
      rcases h with ⟨j, hj, hij⟩
      subst hij
      simp [findIndex, hy2, ih j hj]

theorem find?_set_of_findIndex {α : Type} (p : α → Bool) (l : List α) (i : ℕ)
    (x : α) (h : findIndex p l = some i) (hx : p x = true) :
    (l.set i x).find? p = some x := by
  induction l generalizing i with
  | nil => simp [findIndex] at h
  | cons y t ih =>
    by_cases hy : p y = true
    · simp only [findIndex, hy, if_pos rfl] at h
      have : i = 0 := (Option.some.inj h).symm
      subst this
      simp [List.find?_cons_of_pos _ hx]
    · have hy2 : p y = false := by
        cases hv : p y with
        | true => exact absurd hv hy
        | false => rfl
      simp only [findIndex, hy2, Bool.false_eq_true, if_false, Option.map_eq_some'] at h
      rcases h with ⟨j, hj, hij⟩
      subst hij
      simp only [List.set_cons_succ]
      rw [List.find?_cons_of_neg _ (by simp [hy2])]
      exact ih j hj

/-! Strict equality and truthiness lemmas. -/

theorem strictEq_eq {a b : JsVal} (h : strictEq a b = true) : a = b := by
  cases a <;> cases b <;> simp_all [strictEq]

theorem strictEq_self_of_true {a b : JsVal} (h : strictEq a b = true) :
    strictEq b b = true := by
  have := strictEq_eq h
  subst this
  exact h

theorem strictEq_true_of_eq {a b : JsVal} (h : a = b)
    (hb : strictEq b b = true) : strictEq a b = true := by
  rw [h]; exact hb

theorem truthy_of_getArr_ne_nil {v : JsVal} (h : (getArr v).isEmpty = false) :
    truthy v = true := by
  cases v <;> simp_all [getArr, truthy]

theorem ofields_eq_nil_of_not_obj {v : JsVal} (h : ∀ fs, v ≠ .vObj fs) :
    ofields v = [] := by
  cases v <;> first | rfl | exact absurd rfl (h _)

theorem vehicles_nonempty_results_truthy {rs : JsVal}
    (h : (getArr (oget rs "vehicles")).isEmpty = false) : truthy rs = true := by
  cases rs <;> simp_all [oget, ofields, JsObj.get, getArr, truthy]

/-! Helper lemmas about `saveData`, the recompute sections and `Detection.save`. -/

/-- The ten field keys `Detection.save` serializes (part_001:107-118). -/
def payloadKeys : List String :=
  ["userId", "uploadId", "status", "processingStartTime", "processingEndTime",
   "processingDuration", "results", "annotations", "errorDetails", "metrics"]

theorem payload_ne (k : String) (hk : k ∈ payloadKeys) :
    ¬k = "id" ∧ ¬k = "createdAt" ∧ ¬k = "updatedAt" := by
  fin_cases hk <;> refine ⟨by decide, by decide, by decide⟩

theorem lookupLast_saveData (self : JsObj) (k : String) (hk : k ∈ payloadKeys) :
    JsObj.lookupLast (saveData self) k = some (JsObj.get self k) := by
  fin_cases hk <;> rfl

theorem lookupLast_saveData_id (self : JsObj) :
    JsObj.lookupLast (saveData self) "id" = none := rfl

theorem lookupLast_saveData_createdAt (self : JsObj) :
    JsObj.lookupLast (saveData self) "createdAt" = none := rfl

theorem lookupLast_saveData_vehicles (self : JsObj) :
    JsObj.lookupLast (saveData self) "vehicles" = none := rfl

theorem recomputeDuration_get_ne (parseDate : String → ℚ) (self : JsObj)
    (k : String) (h : ¬k = "processingDuration") :
    JsObj.get (recomputeDuration parseDate self) k = JsObj.get self k := by
  unfold recomputeDuration
  split
  · rw [JsObj.get_set, if_neg h]
  · rfl

theorem recomputeOcclusion_get_ne (self : JsObj) (k : String)
    (h : ¬k = "results") :
    JsObj.get (recomputeOcclusion self) k = JsObj.get self k := by
  unfold recomputeOcclusion
  split
  · rw [JsObj.get_set, if_neg h]
  · rfl

theorem recompute_get_ne (parseDate : String → ℚ) (self : JsObj) (k : String)
    (h1 : ¬k = "processingDuration") (h2 : ¬k = "results") :
    JsObj.get (recomputeStep parseDate self) k = JsObj.get self k := by
  unfold recomputeStep
  rw [recomputeOcclusion_get_ne _ _ h2, recomputeDuration_get_ne _ _ _ h1]

theorem recomputeOcclusion_results_nonempty (self : JsObj)
    (h : (getArr (oget (JsObj.get self "results") "vehicles")).isEmpty = false) :
    JsObj.get (recomputeOcclusion self) "results"
      = .vObj (JsObj.set
          (JsObj.set (ofields (JsObj.get self "results")) "occludedVehicles"
            (.vNum (countOccluded (getArr (oget (JsObj.get self "results") "vehicles")))))
          "occlusionPercentage"
          (.vNum ((countOccluded (getArr (oget (JsObj.get self "results") "vehicles")) : ℚ)
            / (((getArr (oget (JsObj.get self "results") "vehicles")).length : ℚ)) * 100))) := by
  have htr := vehicles_nonempty_results_truthy h
  have htv := truthy_of_getArr_ne_nil h
  unfold recomputeOcclusion
  rw [if_pos (by simp [htr, htv, h]), JsObj.get_set, if_pos rfl]

theorem recomputeOcclusion_skip (self : JsObj)
    (h : (getArr (oget (JsObj.get self "results") "vehicles")).isEmpty = true) :
    recomputeOcclusion self = self := by
  unfold recomputeOcclusion
  rw [if_neg (by simp [h])]

theorem updateDetection_none (m : Medium) (idv : JsVal) (data : JsObj)
    (now : String) (w : WriteOutcome)
    (h : findIndex (fun d => strictEq (oget d "id") idv) (getDetections m) = none) :
    updateDetection m idv data now w = (m, .vNull) := by
  unfold updateDetection
  rw [h]

theorem updateDetection_found (m : Medium) (idv : JsVal) (data : JsObj)
    (now : String) (w : WriteOutcome) (i : ℕ)
    (h : findIndex (fun d => strictEq (oget d "id") idv) (getDetections m) = some i) :
    updateDetection m idv data now w =
      ((writeData m ((getDetections m).set i (mergedRec m data now i)) w).1,
        mergedRec m data now i) := by
  unfold updateDetection
  rw [h]

theorem save_eq_update (parseDate : String → ℚ) (self : JsObj) (m : Medium)
    (f t : String) (w : WriteOutcome)
    (hid : truthy (JsObj.get (recomputeStep parseDate self) "id") = true) :
    Detection.save parseDate self m f t w =
      match updateDetection m (JsObj.get (recomputeStep parseDate self) "id")
          (saveData (recomputeStep parseDate self)) t w with
      | (m2, .vObj fs) => (JsObj.spread (recomputeStep parseDate self) fs, m2)
      | (m2, .vNull) => (recomputeStep parseDate self, m2)
      | (m2, .vUndef) => (recomputeStep parseDate self, m2)
      | (m2, .vBool _) => (recomputeStep parseDate self, m2)
      | (m2, .vNum _) => (recomputeStep parseDate self, m2)
      | (m2, .vStr _) => (recomputeStep parseDate self, m2)
      | (m2, .vArr _) => (recomputeStep parseDate self, m2) := by
  unfold Detection.save
  rw [if_pos hid]
  rcases updateDetection m (JsObj.get (recomputeStep parseDate self) "id")
      (saveData (recomputeStep parseDate self)) t w with ⟨m2, v⟩
  cases v <;> rfl

theorem save_eq_create (parseDate : String → ℚ) (self : JsObj) (m : Medium)
    (f t : String) (w : WriteOutcome)
    (hid : truthy (JsObj.get (recomputeStep parseDate self) "id") = false) :
    Detection.save parseDate self m f t w =
      (JsObj.spread (recomputeStep parseDate self)
        (ofields (createDetection m f t (saveData (recomputeStep parseDate self)) w).2),
       (createDetection m f t (saveData (recomputeStep parseDate self)) w).1) := by
  unfold Detection.save
  rw [if_neg (by simp [hid])]

theorem oget_vObj (fs : JsObj) (k : String) : oget (.vObj fs) k = JsObj.get fs k := rfl

theorem ofields_vObj (fs : JsObj) : ofields (.vObj fs) = fs := rfl

theorem mergedRec_get_payload (m : Medium) (s1 : JsObj) (t : String) (i : ℕ)
    (k : String) (hk : k ∈ payloadKeys) :
    oget (mergedRec m (saveData s1) t i) k = JsObj.get s1 k := by
  obtain ⟨_, _, hkup⟩ := payload_ne k hk
  simp only [mergedRec, oget_vObj]
  rw [JsObj.get_set, if_neg hkup, JsObj.get_spread, lookupLast_saveData s1 k hk]

theorem mergedRec_get_absent (m : Medium) (data : JsObj) (t : String) (i : ℕ)
    (k : String) (hk : JsObj.lookupLast data k = none) (hkup : ¬k = "updatedAt") :
    oget (mergedRec m data t i) k = oget ((getDetections m).getD i .vUndef) k := by
  simp only [mergedRec, oget_vObj]
  rw [JsObj.get_set, if_neg hkup, JsObj.get_spread, hk]
  rfl

theorem mergedRec_get_updatedAt (m : Medium) (data : JsObj) (t : String) (i : ℕ) :
    oget (mergedRec m data t i) "updatedAt" = .vStr t := by
  simp only [mergedRec, oget_vObj]
  rw [JsObj.get_set, if_pos rfl]

theorem save_get_payload (parseDate : String → ℚ) (self : JsObj) (m : Medium)
    (f t : String) (w : WriteOutcome) (k : String) (hk : k ∈ payloadKeys) :
    JsObj.get (Detection.save parseDate self m f t w).1 k
      = JsObj.get (recomputeStep parseDate self) k := by
  obtain ⟨hkid, hkcr, hkup⟩ := payload_ne k hk
  by_cases hid : truthy (JsObj.get (recomputeStep parseDate self) "id") = true
  · rw [save_eq_update parseDate self m f t w hid]
    cases hfi : findIndex
        (fun d => strictEq (oget d "id") (JsObj.get (recomputeStep parseDate self) "id"))
        (getDetections m) with
    | none => rw [updateDetection_none _ _ _ _ _ hfi]
    | some i =>
      rw [updateDetection_found _ _ _ _ _ i hfi]
      simp only [mergedRec, ofields_vObj]
      rw [JsObj.get_spread, JsObj.lookupLast_set, if_neg hkup,
        JsObj.lookupLast_spread, lookupLast_saveData _ k hk]
  · have hid2 : truthy (JsObj.get (recomputeStep parseDate self) "id") = false := by
      cases hx : truthy (JsObj.get (recomputeStep parseDate self) "id") with
      | true => exact absurd hx hid
      | false => rfl
    rw [save_eq_create parseDate self m f t w hid2]
    simp only [createDetection, createDetectionRead, createDetectionWrite,
      newDetectionRec, ofields_vObj]
    rw [JsObj.get_spread, JsObj.lookupLast_set, if_neg hkup, JsObj.lookupLast_set,
      if_neg hkcr, JsObj.lookupLast_spread, lookupLast_saveData _ k hk]

theorem save_found (parseDate : String → ℚ) (self : JsObj) (m : Medium)
    (f t : String) (i : ℕ)
    (hid : truthy (JsObj.get (recomputeStep parseDate self) "id") = true)
    (hfi : findIndex
        (fun d => strictEq (oget d "id") (JsObj.get (recomputeStep parseDate self) "id"))
        (getDetections m) = some i) :
    Detection.save parseDate self m f t .success =
      (JsObj.spread (recomputeStep parseDate self)
        (ofields (mergedRec m (saveData (recomputeStep parseDate self)) t i)),
       Medium.good ((getDetections m).set i
        (mergedRec m (saveData (recomputeStep parseDate self)) t i))) := by
  rw [save_eq_update parseDate self m f t .success hid,
    updateDetection_found _ _ _ _ _ i hfi]
  simp only [mergedRec, writeData, ofields_vObj]

theorem findById_some (m : Medium) (idv : JsVal) (det : JsObj)
    (h : Detection.findById m idv = some det) :
    ∃ old, (getDetections m).find? (fun d => strictEq (oget d "id") idv) = some old
      ∧ det = detectionCtor old := by
  unfold Detection.findById getDetectionById at h
  cases hf : (getDetections m).find? (fun d => strictEq (oget d "id") idv) with
  | none =>
    rw [hf] at h
    simp [truthy] at h
  | some old =>
    rw [hf] at h
    by_cases ht : truthy old = true
    · simp only [Option.getD_some, ht, if_pos rfl] at h
      exact ⟨old, rfl, (Option.some.inj h).symm⟩
    · have ht2 : truthy old = false := by
        cases hx : truthy old with
        | true => exact absurd hx ht
        | false => rfl
      simp [ht2] at h

theorem detectionCtor_get_id (d : JsVal) :
    JsObj.get (detectionCtor d) "id" = oget d "id" := rfl

theorem getDetectionById_eq_of_find? (m : Medium) (idv : JsVal) (x : JsVal)
    (h : (getDetections m).find? (fun d => strictEq (oget d "id") idv) = some x) :
    getDetectionById m idv = x := by
  unfold getDetectionById
  rw [h]
  rfl

/-! ## Claim C3: the analyze route and its duplicate-Detection guard -/

/-- Claim C3 (code_bug): the claim says a second Detection for an Upload is
rejected with a ConstraintViolation-style failure while creation otherwise
succeeds. In the code, `router.post('/analyze')` calls `Upload.findOne`
(detectionRoutes.js:22) — a method the file-backed Upload model does not
define — so for every state of the store and every truthy uploadId the
handler throws a TypeError before the duplicate check at
detectionRoutes.js:35 can run, no Detection record is ever created, and the
documented duplicate-rejection response is unreachable: the route body past
the first model call (abstracted as `rest`) is never invoked. -/
theorem analyzeRoute_throws_before_duplicate_check
    (m : Medium) (rest : Unit → RouteOutcome × Medium) :
    analyzeRoute m (.vStr "u1") rest
      = (.thrown "TypeError: Upload.findOne is not a function", m) := rfl

/-! ## Claim C4: readData on an unreadable or corrupt medium -/

/-- Claim C4 counterexample: on a corrupt backing file `readData` does not
fail — it catches the read error and hands the caller exactly the empty
collection the claim says the caller must not be handed. -/
theorem readData_corrupt_returns_empty :
    readData Medium.corrupt = ([] : List JsVal)
      ∧ getDetections Medium.corrupt = ([] : List JsVal) := ⟨rfl, rfl⟩

/-- Claim C4 amended: `readData` is total — it never raises; an unreadable or
corrupt medium is silently turned into the empty collection, so every reader
(here `getDetectionById`) behaves exactly as if the collection were empty. -/
theorem readData_swallows_io_errors :
    readData Medium.corrupt = ([] : List JsVal)
      ∧ (∀ idv : JsVal, getDetectionById Medium.corrupt idv = .vUndef) :=
  ⟨rfl, fun _ => rfl⟩

/-! ## Claim C5: surfacing of write failures -/

/-- Claim C5 counterexample: with a failing write, `createDetection` still
returns the freshly built record — the caller observes the same success
value as on a successful write — while the store keeps its prior contents
(the model charitably assumes the failed `fs.writeJson` left the old file
intact; the code itself has no temp-file-and-rename discipline). -/
theorem createDetection_reports_success_on_write_failure :
    (createDetection (Medium.good []) "d1" "t0"
        [("uploadId", JsVal.vStr "u1")] .failure).1 = Medium.good []
      ∧ truthy (createDetection (Medium.good []) "d1" "t0"
          [("uploadId", JsVal.vStr "u1")] .failure).2 = true := ⟨rfl, rfl⟩

/-- Claim C5 amended: `writeData` reports a write failure only as a `false`
boolean; `createDetection` and `updateDetection` ignore that boolean and
return exactly the record they would return on success, so no IOError ever
reaches the calling mutation. -/
theorem createDetection_ignores_write_failure
    (m : Medium) (f t : String) (draft : JsObj) (idv : JsVal) (patch : JsObj) :
    (createDetection m f t draft .failure).1 = m
      ∧ (createDetection m f t draft .failure).2
          = (createDetection m f t draft .success).2
      ∧ (updateDetection m idv patch t .failure).1 = m
      ∧ (updateDetection m idv patch t .failure).2
          = (updateDetection m idv patch t .success).2 := by
  refine ⟨rfl, rfl, ?_, ?_⟩ <;>
    · unfold updateDetection
      cases findIndex (fun d => strictEq (oget d "id") idv) (getDetections m) <;> rfl

/-! ## Claim C6: concurrent creates for the same Upload -/

/-- Claim C6 counterexample: two `createDetection` calls for the same
`uploadId` — the serial schedule being one legal schedule of two concurrent
calls — both return a (truthy) created record and leave two records for
upload `u1` in the store, where the claim demands exactly one success and a
ConstraintViolation for the rest; no ConstraintViolation outcome exists in
this code path at all. -/
theorem two_creates_same_upload_both_succeed :
    truthy (createDetection (Medium.good []) "id1" "t1"
        [("userId", JsVal.vStr "alice"), ("uploadId", JsVal.vStr "u1")] .success).2 = true
    ∧ truthy (createDetection
        (createDetection (Medium.good []) "id1" "t1"
          [("userId", JsVal.vStr "alice"), ("uploadId", JsVal.vStr "u1")] .success).1
        "id2" "t2"
        [("userId", JsVal.vStr "alice"), ("uploadId", JsVal.vStr "u1")] .success).2 = true
    ∧ ((getDetections (createDetection
        (createDetection (Medium.good []) "id1" "t1"
          [("userId", JsVal.vStr "alice"), ("uploadId", JsVal.vStr "u1")] .success).1
        "id2" "t2"
        [("userId", JsVal.vStr "alice"), ("uploadId", JsVal.vStr "u1")] .success).1).filter
          (fun d => strictEq (oget d "uploadId") (.vStr "u1"))).length = 2 :=
  ⟨rfl, rfl, rfl⟩

/-- Claim C6 amended: `createDetection` takes no lock and checks no
uniqueness invariant. Sequentially (one legal concurrent schedule), every
create for the same Upload succeeds and appends: after two creates both new
records are in the store. And nothing prevents the load and replace halves
from interleaving: when both calls load the same snapshot before either
writes, the second write replaces the collection with only its own record —
the first create's record is lost (the lost-update race). -/
theorem createDetection_no_mutual_exclusion
    (m : Medium) (draft : JsObj) (f1 f2 t1 t2 : String) :
    getDetections (createDetection
        (createDetection m f1 t1 draft .success).1 f2 t2 draft .success).1
      = getDetections m
        ++ [(createDetection m f1 t1 draft .success).2,
            (createDetection (createDetection m f1 t1 draft .success).1
              f2 t2 draft .success).2]
    ∧ getDetections (createDetectionWrite
        (createDetectionWrite m (createDetectionRead m) f1 t1 draft .success).1
        (createDetectionRead m) f2 t2 draft .success).1
      = getDetections m ++ [(createDetectionWrite
          (createDetectionWrite m (createDetectionRead m) f1 t1 draft .success).1
          (createDetectionRead m) f2 t2 draft .success).2] := by
  constructor
  · simp [createDetection, createDetectionWrite, createDetectionRead,
      getDetections, writeData, readData]
  · simp [createDetectionWrite, createDetectionRead, getDetections,
      writeData, readData]

theorem find?_append_of_none {α : Type} (p : α → Bool) (l1 l2 : List α)
    (h : l1.find? p = none) : (l1 ++ l2).find? p = l2.find? p := by
  induction l1 with
  | nil => rfl
  | cons x t ih =>
    by_cases hx : p x = true
    · rw [List.find?_cons_of_pos _ hx] at h
      exact absurd h (by simp)
    · have hx2 : p x = false := by
        cases hv : p x with
        | true => exact absurd hv hx
        | false => rfl
      rw [List.find?_cons_of_neg _ (by simp [hx2])] at h
      rw [List.cons_append, List.find?_cons_of_neg _ (by simp [hx2])]
      exact ih h

theorem createDetection_snd (m : Medium) (f t : String) (d : JsObj)
    (w : WriteOutcome) :
    (createDetection m f t d w).2 = newDetectionRec f t d := rfl

theorem createDetection_fst_success (m : Medium) (f t : String) (d : JsObj) :
    (createDetection m f t d .success).1
      = Medium.good (getDetections m ++ [newDetectionRec f t d]) := rfl

theorem newDetectionRec_get_id (f t : String) (d : JsObj)
    (hid : JsObj.lookupLast d "id" = none) :
    oget (newDetectionRec f t d) "id" = .vStr f := by
  simp only [newDetectionRec, oget_vObj]
  rw [JsObj.get_set, if_neg (by decide), JsObj.get_set, if_neg (by decide),
    JsObj.get_spread, hid]
  rfl

/-! ## Claim C7: create/get round trip and server-assigned fields -/

/-- Claim C7 counterexample: the spread in `{ id: uuidv4(), ...detectionData,
createdAt, updatedAt }` comes after the fresh id, so a draft that carries an
`id` field overrides the server-assigned identifier: with fresh id `srv1`
and draft `{id: "mine"}` the stored record's id is `mine`, not `srv1`. -/
theorem createDetection_draft_id_overrides_server_id :
    oget (createDetection (Medium.good []) "srv1" "t0"
        [("id", JsVal.vStr "mine")] .success).2 "id" = .vStr "mine"
      ∧ JsVal.vStr "mine" ≠ JsVal.vStr "srv1" :=
  ⟨rfl, fun h => absurd (JsVal.vStr.inj h) (by decide)⟩

/-- Claim C7 amended: for a draft without an `id` key whose fresh id is not
already present in the collection, `create` followed by `get` of the
returned id yields exactly the stored record: its `id` is the server-assigned
fresh id, its `createdAt`/`updatedAt` are the server clock (these two always
win because they come after the spread), and every other field comes
verbatim from the draft. A draft carrying an `id` key instead overrides the
server-assigned id (see the counterexample). -/
theorem create_get_roundtrip (m : Medium) (freshId now : String) (draft : JsObj)
    (hnd : (draft.map Prod.fst).Nodup)
    (hid : JsObj.lookupLast draft "id" = none)
    (hfresh : (getDetections m).find?
        (fun d => strictEq (oget d "id") (.vStr freshId)) = none) :
    getDetectionById (createDetection m freshId now draft .success).1 (.vStr freshId)
        = (createDetection m freshId now draft .success).2
      ∧ oget (createDetection m freshId now draft .success).2 "id" = .vStr freshId
      ∧ oget (createDetection m freshId now draft .success).2 "createdAt" = .vStr now
      ∧ oget (createDetection m freshId now draft .success).2 "updatedAt" = .vStr now
      ∧ ∀ k, ¬k = "id" → ¬k = "createdAt" → ¬k = "updatedAt" →
          oget (createDetection m freshId now draft .success).2 k
            = JsObj.get draft k := by
  have hgid : oget (newDetectionRec freshId now draft) "id" = .vStr freshId :=
    newDetectionRec_get_id freshId now draft hid
  refine ⟨?_, hgid, ?_, ?_, ?_⟩
  · rw [createDetection_snd, createDetection_fst_success]
    apply getDetectionById_eq_of_find?
    show (getDetections m ++ [newDetectionRec freshId now draft]).find? _ = _
    rw [find?_append_of_none _ _ _ hfresh,
      List.find?_cons_of_pos _ (by rw [hgid]; simp [strictEq])]
  · rw [createDetection_snd]
    simp only [newDetectionRec, oget_vObj]
    rw [JsObj.get_set, if_neg (by decide), JsObj.get_set, if_pos rfl]
  · rw [createDetection_snd]
    simp only [newDetectionRec, oget_vObj]
    rw [JsObj.get_set, if_pos rfl]
  · intro k hkid hkcr hkup
    rw [createDetection_snd]
    simp only [newDetectionRec, oget_vObj]
    rw [JsObj.get_set, if_neg hkup, JsObj.get_set, if_neg hkcr, JsObj.get_spread]
    cases hlk : JsObj.lookupLast draft k with
    | some v => exact (JsObj.lookupLast_nodup_get draft k v hnd hlk).symm
    | none =>
      rw [JsObj.lookupLast_none_get draft k hlk]
      show JsObj.get [("id", JsVal.vStr freshId)] k = .vUndef
      rw [show JsObj.get [("id", JsVal.vStr freshId)] k
        = if ("id" : String) = k then JsVal.vStr freshId else JsObj.get [] k from rfl,
        if_neg (fun hx => hkid hx.symm)]
      rfl

/-- Witness for the C7 round-trip theorem at a concrete draft and store. -/
theorem create_get_roundtrip_witness :
    getDetectionById (createDetection (Medium.good []) "srv1" "t0"
        [("userId", JsVal.vStr "u1"), ("uploadId", JsVal.vStr "up1")] .success).1
        (.vStr "srv1")
      = (createDetection (Medium.good []) "srv1" "t0"
          [("userId", JsVal.vStr "u1"), ("uploadId", JsVal.vStr "up1")] .success).2
    ∧ oget (createDetection (Medium.good []) "srv1" "t0"
        [("userId", JsVal.vStr "u1"), ("uploadId", JsVal.vStr "up1")] .success).2
        "id" = .vStr "srv1"
    ∧ oget (createDetection (Medium.good []) "srv1" "t0"
        [("userId", JsVal.vStr "u1"), ("uploadId", JsVal.vStr "up1")] .success).2
        "uploadId" = .vStr "up1" := by
  have h := create_get_roundtrip (Medium.good []) "srv1" "t0"
    [("userId", JsVal.vStr "u1"), ("uploadId", JsVal.vStr "up1")]
    (by decide) rfl rfl
  exact ⟨h.1, h.2.1, h.2.2.2.2 "uploadId" (by decide) (by decide) (by decide)⟩

/-! ## Claim C8: identifier immutability under update patches -/

/-- Claim C8 counterexample: `updateDetection` spreads the patch over the
existing record with the patch taking precedence, so a patch containing an
`id` field replaces the record's identifier: patching record `d1` with
`{id: "evil"}` stores and returns a record whose id is `evil`. -/
theorem updateDetection_patch_overrides_id :
    oget (updateDetection
        (Medium.good [.vObj [("id", .vStr "d1"), ("userId", .vStr "u1"),
          ("createdAt", .vStr "t0")]])
        (.vStr "d1") [("id", .vStr "evil")] "t1" .success).2 "id" = .vStr "evil"
      ∧ JsVal.vStr "evil" ≠ JsVal.vStr "d1" :=
  ⟨rfl, fun h => absurd (JsVal.vStr.inj h) (by decide)⟩

/-- Claim C8 amended: the identifier and `createdAt` of an updated record are
preserved only because the model layer's patches carry no `id`/`createdAt`
keys: for every patch without an `id` key and without a `createdAt` key,
`updateDetection` keeps the found record's id and createdAt and always
server-assigns `updatedAt`; a patch carrying those keys overrides them (see
the counterexample). -/
theorem updateDetection_preserves_id_without_id_key
    (m : Medium) (idv : JsVal) (patch : JsObj) (now : String) (w : WriteOutcome)
    (i : ℕ)
    (hfi : findIndex (fun d => strictEq (oget d "id") idv) (getDetections m)
      = some i)
    (hid : JsObj.lookupLast patch "id" = none)
    (hcr : JsObj.lookupLast patch "createdAt" = none) :
    oget (updateDetection m idv patch now w).2 "id"
        = oget ((getDetections m).getD i .vUndef) "id"
      ∧ oget (updateDetection m idv patch now w).2 "createdAt"
        = oget ((getDetections m).getD i .vUndef) "createdAt"
      ∧ oget (updateDetection m idv patch now w).2 "updatedAt" = .vStr now := by
  rw [updateDetection_found _ _ _ _ _ i hfi]
  exact ⟨mergedRec_get_absent m patch now i "id" hid (by decide),
    mergedRec_get_absent m patch now i "createdAt" hcr (by decide),
    mergedRec_get_updatedAt m patch now i⟩

/-- Witness for the C8 theorem at a concrete store and patch. -/
theorem updateDetection_preserves_id_witness :
    oget (updateDetection
        (Medium.good [.vObj [("id", .vStr "d1"), ("userId", .vStr "u1"),
          ("createdAt", .vStr "t0")]])
        (.vStr "d1") [("status", .vStr "completed")] "t9" .success).2 "id"
        = .vStr "d1"
      ∧ oget (updateDetection
          (Medium.good [.vObj [("id", .vStr "d1"), ("userId", .vStr "u1"),
            ("createdAt", .vStr "t0")]])
          (.vStr "d1") [("status", .vStr "completed")] "t9" .success).2 "createdAt"
        = .vStr "t0"
      ∧ oget (updateDetection
          (Medium.good [.vObj [("id", .vStr "d1"), ("userId", .vStr "u1"),
            ("createdAt", .vStr "t0")]])
          (.vStr "d1") [("status", .vStr "completed")] "t9" .success).2 "updatedAt"
        = .vStr "t9" := by
  have h := updateDetection_preserves_id_without_id_key
    (Medium.good [.vObj [("id", .vStr "d1"), ("userId", .vStr "u1"),
      ("createdAt", .vStr "t0")]])
    (.vStr "d1") [("status", .vStr "completed")] "t9" .success 0 rfl rfl rfl
  exact ⟨h.1, h.2.1, h.2.2⟩

/-! ## Claim C1: recomputation of occlusion statistics on save -/

/-- A stored Detection record with an empty vehicle list but caller-supplied
(stale) occlusion statistics: totalVehicles 0, occludedVehicles 5,
occlusionPercentage 50. -/
def c1Record : JsVal :=
  .vObj [("id", .vStr "d1"), ("userId", .vStr "u1"), ("uploadId", .vStr "up1"),
    ("status", .vStr "completed"),
    ("results", .vObj [("totalVehicles", .vNum 0), ("occludedVehicles", .vNum 5),
      ("occlusionPercentage", .vNum 50), ("vehicles", .vArr [])]),
    ("createdAt", .vStr "t0"), ("updatedAt", .vStr "t0")]

/-- Claim C1 counterexample: `Detection.save` recomputes the occlusion
fields only when the vehicle list is nonempty (part_001:98), so saving a
record whose vehicle list is empty stores the caller-supplied
`occludedVehicles = 5` and `occlusionPercentage = 50` unchanged even though
`totalVehicles = 0` — where the claim demands `occlusionPercentage = 0`. -/
theorem save_keeps_stale_occlusion_on_empty_vehicles :
    oget (oget (getDetectionById
        (Detection.save (fun _ => 0) (detectionCtor c1Record)
          (Medium.good [c1Record]) "f1" "t1" .success).2 (.vStr "d1"))
        "results") "totalVehicles" = .vNum 0
    ∧ oget (oget (getDetectionById
        (Detection.save (fun _ => 0) (detectionCtor c1Record)
          (Medium.good [c1Record]) "f1" "t1" .success).2 (.vStr "d1"))
        "results") "occludedVehicles" = .vNum 5
    ∧ oget (oget (getDetectionById
        (Detection.save (fun _ => 0) (detectionCtor c1Record)
          (Medium.good [c1Record]) "f1" "t1" .success).2 (.vStr "d1"))
        "results") "occlusionPercentage" = .vNum 50
    ∧ JsVal.vNum 50 ≠ JsVal.vNum 0 :=
  ⟨rfl, rfl, rfl, fun h => absurd (JsVal.vNum.inj h) (by decide)⟩

/-- Claim C1 amended: whenever the vehicle list of `this.results` is
nonempty, `Detection.save` recomputes `occludedVehicles` as the number of
vehicles with truthy `occlusion.isOccluded` and `occlusionPercentage` as
that count divided by the vehicle-list length times 100 — the denominator is
the vehicle-list length, not `totalVehicles`, and `totalVehicles` itself is
stored unchanged; when the vehicle list is empty or missing, the
caller-supplied statistics are stored unchanged (see the counterexample). -/
theorem save_recomputes_occlusion_from_vehicle_list
    (parseDate : String → ℚ) (self : JsObj) (m : Medium) (f t : String)
    (w : WriteOutcome)
    (h : (getArr (oget (JsObj.get self "results") "vehicles")).isEmpty = false) :
    oget (JsObj.get (Detection.save parseDate self m f t w).1 "results")
        "occludedVehicles"
      = .vNum (countOccluded (getArr (oget (JsObj.get self "results") "vehicles")))
    ∧ oget (JsObj.get (Detection.save parseDate self m f t w).1 "results")
        "occlusionPercentage"
      = .vNum ((countOccluded (getArr (oget (JsObj.get self "results") "vehicles")) : ℚ)
          / ((getArr (oget (JsObj.get self "results") "vehicles")).length : ℚ) * 100)
    ∧ oget (JsObj.get (Detection.save parseDate self m f t w).1 "results")
        "totalVehicles"
      = oget (JsObj.get self "results") "totalVehicles" := by
  have hres : JsObj.get (recomputeDuration parseDate self) "results"
      = JsObj.get self "results" :=
    recomputeDuration_get_ne parseDate self "results" (by decide)
  have hsave : JsObj.get (Detection.save parseDate self m f t w).1 "results"
      = JsObj.get (recomputeStep parseDate self) "results" :=
    save_get_payload parseDate self m f t w "results" (by decide)
  have h2 : (getArr (oget (JsObj.get (recomputeDuration parseDate self) "results")
      "vehicles")).isEmpty = false := by rw [hres]; exact h
  have hocc := recomputeOcclusion_results_nonempty (recomputeDuration parseDate self) h2
  rw [hres] at hocc
  rw [hsave, show recomputeStep parseDate self
    = recomputeOcclusion (recomputeDuration parseDate self) from rfl, hocc]
  refine ⟨?_, ?_, ?_⟩
  · rw [oget_vObj, JsObj.get_set, if_neg (by decide), JsObj.get_set, if_pos rfl]
  · rw [oget_vObj, JsObj.get_set, if_pos rfl]
  · rw [oget_vObj, JsObj.get_set, if_neg (by decide), JsObj.get_set,
      if_neg (by decide)]
    rfl

/-- The in-memory Detection instance for the C1 witness: three as
`totalVehicles`, two vehicles of which exactly one has
`occlusion.isOccluded` set. -/
def c1WitnessSelf : JsObj :=
  [("id", .vStr "d9"),
   ("results", .vObj [("totalVehicles", .vNum 3),
     ("vehicles", .vArr
       [.vObj [("id", .vStr "v1"),
         ("occlusion", .vObj [("isOccluded", .vBool true)])],
        .vObj [("id", .vStr "v2"),
         ("occlusion", .vObj [("isOccluded", .vBool false)])]])])]

/-- Witness for the C1 amended theorem: with two vehicles, one occluded, the
saved statistics are occludedVehicles 1 and occlusionPercentage 50 while the
caller-supplied totalVehicles 3 is stored unchanged. -/
theorem save_recomputes_occlusion_witness :
    oget (JsObj.get (Detection.save (fun _ => 0) c1WitnessSelf
        (Medium.good []) "f1" "t1" .success).1 "results") "occludedVehicles"
      = .vNum 1
    ∧ oget (JsObj.get (Detection.save (fun _ => 0) c1WitnessSelf
        (Medium.good []) "f1" "t1" .success).1 "results") "occlusionPercentage"
      = .vNum 50
    ∧ oget (JsObj.get (Detection.save (fun _ => 0) c1WitnessSelf
        (Medium.good []) "f1" "t1" .success).1 "results") "totalVehicles"
      = .vNum 3 := by
  have h := save_recomputes_occlusion_from_vehicle_list (fun _ => 0) c1WitnessSelf
    (Medium.good []) "f1" "t1" .success rfl
  refine ⟨h.1.trans ?_, h.2.1.trans ?_, h.2.2.trans rfl⟩
  · rw [show countOccluded (getArr (oget (JsObj.get c1WitnessSelf "results")
      "vehicles")) = 1 from rfl]
    simp
  · rw [show countOccluded (getArr (oget (JsObj.get c1WitnessSelf "results")
      "vehicles")) = 1 from rfl,
      show (getArr (oget (JsObj.get c1WitnessSelf "results") "vehicles")).length
        = 2 from rfl]
    norm_num

/-! ## Claim C2: status transitions are not validated -/

theorem statusStamp_get_ne (self1 : JsObj) (status now : String) (k : String)
    (h1 : ¬k = "processingStartTime") (h2 : ¬k = "processingEndTime") :
    JsObj.get (statusStamp self1 status now) k = JsObj.get self1 k := by
  unfold statusStamp
  split
  · rw [JsObj.get_set, if_neg h1]
  · split
    · rw [JsObj.get_set, if_neg h2]
    · rfl

theorem statusStamp_get_start (self1 : JsObj) (status now : String)
    (h : truthy (JsObj.get self1 "processingStartTime") = true) :
    JsObj.get (statusStamp self1 status now) "processingStartTime"
      = JsObj.get self1 "processingStartTime" := by
  unfold statusStamp
  rw [if_neg (by simp [h])]
  split
  · rw [JsObj.get_set, if_neg (by decide)]
  · rfl

theorem updateStatusSelf_get_status (self : JsObj) (status : String)
    (errd : JsVal) (now : String) :
    JsObj.get (updateStatusSelf self status errd now) "status" = .vStr status := by
  unfold updateStatusSelf
  split
  · rw [JsObj.get_set, if_neg (by decide),
      statusStamp_get_ne _ _ _ _ (by decide) (by decide),
      JsObj.get_set, if_pos rfl]
  · rw [statusStamp_get_ne _ _ _ _ (by decide) (by decide),
      JsObj.get_set, if_pos rfl]

theorem updateStatusSelf_get_start (self : JsObj) (status : String)
    (errd : JsVal) (now : String)
    (h : truthy (JsObj.get self "processingStartTime") = true) :
    JsObj.get (updateStatusSelf self status errd now) "processingStartTime"
      = JsObj.get self "processingStartTime" := by
  have hs : JsObj.get (JsObj.set self "status" (.vStr status))
      "processingStartTime" = JsObj.get self "processingStartTime" := by
    rw [JsObj.get_set, if_neg (by decide)]
  unfold updateStatusSelf
  split
  · rw [JsObj.get_set, if_neg (by decide),
      statusStamp_get_start _ _ _ (by rw [hs]; exact h), hs]
  · rw [statusStamp_get_start _ _ _ (by rw [hs]; exact h), hs]

/-- A stored Detection record already in the terminal status `completed`,
with both processing timestamps set. -/
def c2Record : JsVal :=
  .vObj [("id", .vStr "d2"), ("userId", .vStr "u1"), ("uploadId", .vStr "up1"),
    ("status", .vStr "completed"), ("processingStartTime", .vStr "ts"),
    ("processingEndTime", .vStr "te"),
    ("createdAt", .vStr "t0"), ("updatedAt", .vStr "t0")]

/-- Claim C2 counterexample: `updateStatus` has no transition table — moving
a `completed` Detection to `processing` does not fail with InvalidTransition
(no such error exists anywhere in the code; `updateStatus` and
`updateDetection` are total and always persist); it mutates the record, and
the store afterwards holds the detection with status `processing`. -/
theorem updateStatus_terminal_to_processing_succeeds :
    JsObj.get (Detection.updateStatus (fun _ => 0) (detectionCtor c2Record)
        "processing" .vNull (Medium.good [c2Record]) "f1" "t5" .success).1
        "status" = .vStr "processing"
    ∧ oget (getDetectionById
        (Detection.updateStatus (fun _ => 0) (detectionCtor c2Record)
          "processing" .vNull (Medium.good [c2Record]) "f1" "t5" .success).2
        (.vStr "d2")) "status" = .vStr "processing"
    ∧ JsVal.vStr "processing" ≠ JsVal.vStr "completed" :=
  ⟨rfl, rfl, fun h => absurd (JsVal.vStr.inj h) (by decide)⟩

/-- Claim C2 amended: `updateStatus` performs no transition validation at
all: for every current record and every requested status — including
`processing` requested on a record in a terminal status — the returned
instance carries the requested status (the record is mutated; there is no
InvalidTransition outcome in the code), and an already-set
`processingStartTime` is the only thing protected, by the
stamp-only-when-unset guards. -/
theorem updateStatus_no_transition_validation
    (parseDate : String → ℚ) (self : JsObj) (status : String) (errd : JsVal)
    (m : Medium) (f now : String) (w : WriteOutcome)
    (h : truthy (JsObj.get self "processingStartTime") = true) :
    JsObj.get (Detection.updateStatus parseDate self status errd m f now w).1
        "status" = .vStr status
    ∧ JsObj.get (Detection.updateStatus parseDate self status errd m f now w).1
        "processingStartTime" = JsObj.get self "processingStartTime" := by
  constructor
  · rw [show Detection.updateStatus parseDate self status errd m f now w
      = Detection.save parseDate (updateStatusSelf self status errd now)
        m f now w from rfl,
      save_get_payload _ _ _ _ _ _ "status" (by decide),
      recompute_get_ne _ _ _ (by decide) (by decide),
      updateStatusSelf_get_status]
  · rw [show Detection.updateStatus parseDate self status errd m f now w
      = Detection.save parseDate (updateStatusSelf self status errd now)
        m f now w from rfl,
      save_get_payload _ _ _ _ _ _ "processingStartTime" (by decide),
      recompute_get_ne _ _ _ (by decide) (by decide),
      updateStatusSelf_get_start _ _ _ _ h]

/-- Witness for the C2 amended theorem: a `completed` record with a set
start time moved to `processing` — the status is overwritten and the start
time preserved. -/
theorem updateStatus_no_transition_validation_witness :
    JsObj.get (Detection.updateStatus (fun _ => 0) (detectionCtor c2Record)
        "processing" .vNull (Medium.good [c2Record]) "f1" "t5" .success).1
        "status" = .vStr "processing"
    ∧ JsObj.get (Detection.updateStatus (fun _ => 0) (detectionCtor c2Record)
        "processing" .vNull (Medium.good [c2Record]) "f1" "t5" .success).1
        "processingStartTime" = .vStr "ts" := by
  have h := updateStatus_no_transition_validation (fun _ => 0)
    (detectionCtor c2Record) "processing" .vNull (Medium.good [c2Record])
    "f1" "t5" .success rfl
  exact ⟨h.1, h.2.trans rfl⟩

/-! ## Claim C9: a raised analysis error is recorded as a failed Detection -/

theorem truthy_vStr (s : String) (h : ¬s = "") : truthy (.vStr s) = true := by
  simp [truthy, h]

theorem getDetections_good (l : List JsVal) : getDetections (Medium.good l) = l := rfl

/-- Claim C9: when the analysis step of `processVehicleDetection` raises an
error (with a nonempty message, as every runtime error carries) against an
existing Detection with a truthy id, the background task terminates normally
— the catch block swallows the error, refetches the record, and persists it
with status `failed`, `errorDetails = {code: PROCESSING_ERROR, message}`
(nonempty message), and `processingEndTime` set to the failure timestamp.
The function is total by construction: no error escapes the task. -/
theorem processVehicleDetection_records_failure
    (parseDate : String → ℚ) (m : Medium) (detId : JsVal) (det : JsObj)
    (msg tStart tEnd tFail freshId : String)
    (h1 : Detection.findById m detId = some det)
    (h2 : truthy detId = true)
    (h3 : ¬msg = "")
    (h4 : ¬tFail = "") :
    oget (getDetectionById
        (processVehicleDetection parseDate m detId (.error msg)
          tStart tEnd tFail freshId .success) detId) "status" = .vStr "failed"
    ∧ oget (getDetectionById
        (processVehicleDetection parseDate m detId (.error msg)
          tStart tEnd tFail freshId .success) detId) "errorDetails"
      = processingErrorDetails msg
    ∧ truthy (oget (oget (getDetectionById
        (processVehicleDetection parseDate m detId (.error msg)
          tStart tEnd tFail freshId .success) detId) "errorDetails") "message")
      = true
    ∧ oget (getDetectionById
        (processVehicleDetection parseDate m detId (.error msg)
          tStart tEnd tFail freshId .success) detId) "processingEndTime"
      = .vStr tFail
    ∧ truthy (oget (getDetectionById
        (processVehicleDetection parseDate m detId (.error msg)
          tStart tEnd tFail freshId .success) detId) "processingEndTime")
      = true := by
  obtain ⟨old, hfind, hdet⟩ := findById_some m detId det h1
  have hpold : strictEq (oget old "id") detId = true := by
    have hp := List.find?_some hfind
    exact hp
  have hideq : oget old "id" = detId := strictEq_eq hpold
  have hself : strictEq detId detId = true := strictEq_self_of_true hpold
  obtain ⟨i, hfi, hgetD⟩ := findIndex_of_find? _ _ _ hfind
  -- the instance after the `processing` mutation
  have hdid1 : JsObj.get (recomputeStep parseDate
      (jobProcessingSelf (detectionCtor old) tStart)) "id" = detId := by
    rw [recompute_get_ne _ _ _ (by decide) (by decide)]
    simp only [jobProcessingSelf]
    rw [JsObj.get_set, if_neg (by decide), JsObj.get_set, if_neg (by decide),
      detectionCtor_get_id, hideq]
  have hidt1 : truthy (JsObj.get (recomputeStep parseDate
      (jobProcessingSelf (detectionCtor old) tStart)) "id") = true := by
    rw [hdid1]; exact h2
  have hfi1 : findIndex (fun d => strictEq (oget d "id")
      (JsObj.get (recomputeStep parseDate
        (jobProcessingSelf (detectionCtor old) tStart)) "id")) (getDetections m)
      = some i := by
    rw [hdid1]; exact hfi
  have hsave1 := save_found parseDate
    (jobProcessingSelf (detectionCtor old) tStart) m freshId tStart i hidt1 hfi1
  -- the record stored by the first save
  have hm1id : oget (mergedRec m (saveData (recomputeStep parseDate
      (jobProcessingSelf (detectionCtor old) tStart))) tStart i) "id" = detId := by
    rw [mergedRec_get_absent _ _ _ _ "id" (lookupLast_saveData_id _) (by decide),
      hgetD .vUndef]
    exact hideq
  have hpm1 := strictEq_true_of_eq hm1id hself
  have hfind2 := find?_set_of_findIndex (fun d => strictEq (oget d "id") detId)
    (getDetections m) i _ hfi hpm1
  have hfb2 : Detection.findById (Medium.good ((getDetections m).set i
      (mergedRec m (saveData (recomputeStep parseDate
        (jobProcessingSelf (detectionCtor old) tStart))) tStart i))) detId
      = some (detectionCtor (mergedRec m (saveData (recomputeStep parseDate
        (jobProcessingSelf (detectionCtor old) tStart))) tStart i)) := by
    unfold Detection.findById getDetectionById
    rw [getDetections_good, hfind2]
    rfl
  -- unfold the job body
  simp only [processVehicleDetection, h1]
  subst hdet
  rw [hsave1]
  simp only [hfb2]
  -- the failed instance written back by the catch block
  have hdid2 : JsObj.get (recomputeStep parseDate (jobFailedSelf
      (detectionCtor (mergedRec m (saveData (recomputeStep parseDate
        (jobProcessingSelf (detectionCtor old) tStart))) tStart i)) msg tFail))
      "id" = detId := by
    rw [recompute_get_ne _ _ _ (by decide) (by decide)]
    simp only [jobFailedSelf]
    rw [JsObj.get_set, if_neg (by decide), JsObj.get_set, if_neg (by decide),
      JsObj.get_set, if_neg (by decide), detectionCtor_get_id, hm1id]
  have hidt2 : truthy (JsObj.get (recomputeStep parseDate (jobFailedSelf
      (detectionCtor (mergedRec m (saveData (recomputeStep parseDate
        (jobProcessingSelf (detectionCtor old) tStart))) tStart i)) msg tFail))
      "id") = true := by
    rw [hdid2]; exact h2
  have hfiset := findIndex_set_self (fun d => strictEq (oget d "id") detId)
    (getDetections m) i _ hfi hpm1
  have hfi2 : findIndex (fun d => strictEq (oget d "id")
      (JsObj.get (recomputeStep parseDate (jobFailedSelf
        (detectionCtor (mergedRec m (saveData (recomputeStep parseDate
          (jobProcessingSelf (detectionCtor old) tStart))) tStart i)) msg tFail))
        "id"))
      (getDetections (Medium.good ((getDetections m).set i
        (mergedRec m (saveData (recomputeStep parseDate
          (jobProcessingSelf (detectionCtor old) tStart))) tStart i))))
      = some i := by
    rw [hdid2, getDetections_good]; exact hfiset
  have hsave2 := save_found parseDate
    (jobFailedSelf (detectionCtor (mergedRec m (saveData (recomputeStep parseDate
      (jobProcessingSelf (detectionCtor old) tStart))) tStart i)) msg tFail)
    (Medium.good ((getDetections m).set i (mergedRec m (saveData (recomputeStep
      parseDate (jobProcessingSelf (detectionCtor old) tStart))) tStart i)))
    freshId tFail i hidt2 hfi2
  rw [hsave2]
  simp only [getDetections_good]
  -- the record stored by the catch block save
  have hm2id : oget (mergedRec (Medium.good ((getDetections m).set i
      (mergedRec m (saveData (recomputeStep parseDate
        (jobProcessingSelf (detectionCtor old) tStart))) tStart i)))
      (saveData (recomputeStep parseDate (jobFailedSelf
        (detectionCtor (mergedRec m (saveData (recomputeStep parseDate
          (jobProcessingSelf (detectionCtor old) tStart))) tStart i)) msg tFail)))
      tFail i) "id" = detId := by
    rw [mergedRec_get_absent _ _ _ _ "id" (lookupLast_saveData_id _) (by decide),
      getDetections_good,
      set_getD_of_findIndex (fun d => strictEq (oget d "id") detId)
        (getDetections m) i _ .vUndef hfi]
    exact hm1id
  have hpm2 := strictEq_true_of_eq hm2id hself
  have hfind3 := find?_set_of_findIndex (fun d => strictEq (oget d "id") detId)
    _ i _ hfiset hpm2
  rw [getDetectionById_eq_of_find? _ _ _ hfind3]
  refine ⟨?_, ?_, ?_, ?_, ?_⟩
  · rw [mergedRec_get_payload _ _ _ _ "status" (by decide),
      recompute_get_ne _ _ _ (by decide) (by decide)]
    simp only [jobFailedSelf]
    rw [JsObj.get_set, if_neg (by decide), JsObj.get_set, if_neg (by decide),
      JsObj.get_set, if_pos rfl]
  · rw [mergedRec_get_payload _ _ _ _ "errorDetails" (by decide),
      recompute_get_ne _ _ _ (by decide) (by decide)]
    simp only [jobFailedSelf]
    rw [JsObj.get_set, if_pos rfl]
  · rw [mergedRec_get_payload _ _ _ _ "errorDetails" (by decide),
      recompute_get_ne _ _ _ (by decide) (by decide)]
    simp only [jobFailedSelf]
    rw [JsObj.get_set, if_pos rfl,
      show oget (processingErrorDetails msg) "message" = .vStr msg from rfl]
    exact truthy_vStr msg h3
  · rw [mergedRec_get_payload _ _ _ _ "processingEndTime" (by decide),
      recompute_get_ne _ _ _ (by decide) (by decide)]
    simp only [jobFailedSelf]
    rw [JsObj.get_set, if_neg (by decide), JsObj.get_set, if_pos rfl]
  · rw [mergedRec_get_payload _ _ _ _ "processingEndTime" (by decide),
      recompute_get_ne _ _ _ (by decide) (by decide)]
    simp only [jobFailedSelf]
    rw [JsObj.get_set, if_neg (by decide), JsObj.get_set, if_pos rfl]
    exact truthy_vStr tFail h4

/-- A stored pending Detection record for the C9 witness. -/
def c9Record : JsVal :=
  .vObj [("id", .vStr "d3"), ("userId", .vStr "u1"), ("uploadId", .vStr "up1"),
    ("status", .vStr "pending"), ("createdAt", .vStr "t0"), ("updatedAt", .vStr "t0")]

/-- Witness for the C9 theorem: a pending record whose analysis raises
`boom` ends failed with the message recorded and the end time stamped. -/
theorem processVehicleDetection_records_failure_witness :
    oget (getDetectionById (processVehicleDetection (fun _ => 0)
        (Medium.good [c9Record]) (.vStr "d3") (.error "boom")
        "t1" "t2" "t3" "f1" .success) (.vStr "d3")) "status" = .vStr "failed"
    ∧ oget (getDetectionById (processVehicleDetection (fun _ => 0)
        (Medium.good [c9Record]) (.vStr "d3") (.error "boom")
        "t1" "t2" "t3" "f1" .success) (.vStr "d3")) "errorDetails"
      = processingErrorDetails "boom"
    ∧ truthy (oget (oget (getDetectionById (processVehicleDetection (fun _ => 0)
        (Medium.good [c9Record]) (.vStr "d3") (.error "boom")
        "t1" "t2" "t3" "f1" .success) (.vStr "d3")) "errorDetails") "message")
      = true
    ∧ oget (getDetectionById (processVehicleDetection (fun _ => 0)
        (Medium.good [c9Record]) (.vStr "d3") (.error "boom")
        "t1" "t2" "t3" "f1" .success) (.vStr "d3")) "processingEndTime"
      = .vStr "t3"
    ∧ truthy (oget (getDetectionById (processVehicleDetection (fun _ => 0)
        (Medium.good [c9Record]) (.vStr "d3") (.error "boom")
        "t1" "t2" "t3" "f1" .success) (.vStr "d3")) "processingEndTime")
      = true :=
  processVehicleDetection_records_failure (fun _ => 0) (Medium.good [c9Record])
    (.vStr "d3") (detectionCtor c9Record) "boom" "t1" "t2" "t3" "f1"
    rfl rfl (by decide) (by decide)

/-! ## Claim C10: the statistics operation and the pipeline's field shapes -/

theorem vehicleFold (occ : JsVal → Bool) (vs : List JsVal) (a b : ℕ) :
    vs.foldl (fun acc2 v => (acc2.1 + 1, if occ v then acc2.2 + 1 else acc2.2))
      (a, b)
      = (a + vs.length, b + (vs.filter occ).length) := by
  induction vs generalizing a b with
  | nil => simp
  | cons x t ih =>
    cases hx : occ x with
    | true =>
      simp [List.foldl_cons, hx, ih, List.filter_cons]
      omega
    | false =>
      simp [List.foldl_cons, hx, ih, List.filter_cons]
      omega

/-- `calculateOcclusionStats` counts exactly the vehicles of the top-level
`vehicles` array, an element being occluded exactly when its top-level
`occluded` field is truthy. -/
theorem occlusionCounts_single (d : JsVal) (vs : List JsVal)
    (h : oget d "vehicles" = .vArr vs) :
    occlusionCounts [d]
      = (vs.length, (vs.filter (fun v => truthy (oget v "occluded"))).length) := by
  unfold occlusionCounts
  rw [List.foldl_cons, List.foldl_nil, h]
  simp only [truthy, getArr, if_pos rfl]
  rw [vehicleFold]
  simp

theorem occlusionCounts_no_vehicles (d : JsVal)
    (h : truthy (oget d "vehicles") = false) :
    occlusionCounts [d] = (0, 0) := by
  unfold occlusionCounts
  rw [List.foldl_cons, List.foldl_nil, if_neg (by simp [h])]

theorem occlusionStats_occluded (ds : List JsVal) :
    oget (calculateOcclusionStats ds) "occludedVehicles"
      = .vNum (occlusionCounts ds).2 := rfl

theorem occlusionStats_rate_zero (ds : List JsVal)
    (h : (occlusionCounts ds).1 = 0) :
    oget (calculateOcclusionStats ds) "occlusionRate" = .vNum 0 := by
  unfold calculateOcclusionStats
  rw [oget_vObj]
  show (if ("totalVehicles" : String) = "occlusionRate" then _ else _) = _
  rw [if_neg (by decide)]
  show (if ("occludedVehicles" : String) = "occlusionRate" then _ else _) = _
  rw [if_neg (by decide)]
  show (if ("occlusionRate" : String) = "occlusionRate" then _ else _) = _
  rw [if_pos rfl, if_neg (by simp [h])]

theorem occlusionStats_rate_pos (ds : List JsVal)
    (h : 0 < (occlusionCounts ds).1) :
    oget (calculateOcclusionStats ds) "occlusionRate"
      = .vStr (toFixed2 (((occlusionCounts ds).2 : ℚ)
          / ((occlusionCounts ds).1 : ℚ) * 100)) := by
  unfold calculateOcclusionStats
  rw [oget_vObj]
  show (if ("totalVehicles" : String) = "occlusionRate" then _ else _) = _
  rw [if_neg (by decide)]
  show (if ("occludedVehicles" : String) = "occlusionRate" then _ else _) = _
  rw [if_neg (by decide)]
  show (if ("occlusionRate" : String) = "occlusionRate" then _ else _) = _
  rw [if_pos rfl, if_pos h]

theorem getStats_occlusionStats (ups ds : List JsVal) :
    oget (getStats ups ds .vNull) "occlusionStats"
      = calculateOcclusionStats ds := rfl

theorem lookupLast_isSome_of_any (fs : JsObj) (k : String)
    (h : fs.any (fun p => p.1 = k) = true) :
    (JsObj.lookupLast fs k).isSome = true := by
  induction fs with
  | nil => simp at h
  | cons p t ih =>
    by_cases ht : t.any (fun p => p.1 = k) = true
    · have hsome := ih ht
      cases hx : JsObj.lookupLast t k with
      | some v => simp [JsObj.lookupLast, hx]
      | none => rw [hx] at hsome; simp at hsome
    · have ht2 : t.any (fun p => p.1 = k) = false := by
        cases hv : t.any (fun p => p.1 = k) with
        | true => exact absurd hv ht
        | false => rfl
      have hp : p.1 = k := by
        by_cases hp : p.1 = k
        · exact hp
        · simp [List.any_cons, hp, ht2] at h
      simp [JsObj.lookupLast, JsObj.lookupLast_of_not_any t k ht2, hp]

/-- On a well-formed (duplicate-free) record whose `id` lookup is the value
an existing strict-equality match produced, the last and first bindings of
`id` agree. -/
theorem lookupLast_id_of_match (old detId : JsVal)
    (hnd : ((ofields old).map Prod.fst).Nodup)
    (hideq : oget old "id" = detId)
    (h2 : truthy detId = true) :
    JsObj.lookupLast (ofields old) "id" = some detId := by
  by_cases hany : (ofields old).any (fun p => p.1 = "id") = true
  · cases hx : JsObj.lookupLast (ofields old) "id" with
    | some v =>
      have := JsObj.lookupLast_nodup_get (ofields old) "id" v hnd hx
      rw [show JsObj.get (ofields old) "id" = oget old "id" from rfl, hideq] at this
      rw [this]
    | none =>
      have := lookupLast_isSome_of_any (ofields old) "id" hany
      rw [hx] at this
      simp at this
  · have hany2 : (ofields old).any (fun p => p.1 = "id") = false := by
      cases hv : (ofields old).any (fun p => p.1 = "id") with
      | true => exact absurd hv hany
      | false => rfl
    have hu : oget old "id" = .vUndef := JsObj.get_of_not_any (ofields old) "id" hany2
    rw [hu] at hideq
    rw [← hideq] at h2
    simp [truthy] at h2

/-- Claim C10: `getStats`/`calculateOcclusionStats` counts a vehicle as
occluded only via a truthy top-level `occluded` field of an element of the
detection's top-level `vehicles` array (conjuncts 8 and 9: the statistics of
a single record are exactly the length and the occluded-filter length of its
`vehicles` array, and no vehicle of the pipeline's results object carries an
`occluded` key — they use `occlusion.isOccluded`). The pipeline stores
vehicles under `results.vehicles` and never writes a top-level `vehicles`
field: a record driven through the successful `processVehicleDetection` path
still has no truthy top-level `vehicles`, so the statistics over it count
zero total and zero occluded vehicles, with `occlusionRate` the number 0.
And `occlusionRate` is a `toFixed(2)` string when `totalVehicles > 0`, the
number 0 when `totalVehicles = 0` (conjuncts 5-7). -/
theorem occlusion_stats_ignore_pipeline_vehicles
    (parseDate : String → ℚ) (m : Medium) (detId : JsVal) (det : JsObj)
    (tStart tEnd tFail freshId : String)
    (h1 : Detection.findById m detId = some det)
    (h2 : truthy detId = true)
    (hnd : ((ofields (getDetectionById m detId)).map Prod.fst).Nodup)
    (hveh : truthy (oget (getDetectionById m detId) "vehicles") = false) :
    truthy (oget (getDetectionById (processVehicleDetection parseDate m detId
        (.ok mockResultsObj) tStart tEnd tFail freshId .success) detId)
        "vehicles") = false
    ∧ occlusionCounts [getDetectionById (processVehicleDetection parseDate m detId
        (.ok mockResultsObj) tStart tEnd tFail freshId .success) detId] = (0, 0)
    ∧ oget (calculateOcclusionStats [getDetectionById (processVehicleDetection
        parseDate m detId (.ok mockResultsObj) tStart tEnd tFail freshId .success)
        detId]) "occludedVehicles" = .vNum 0
    ∧ oget (calculateOcclusionStats [getDetectionById (processVehicleDetection
        parseDate m detId (.ok mockResultsObj) tStart tEnd tFail freshId .success)
        detId]) "occlusionRate" = .vNum 0
    ∧ (∀ ds : List JsVal, (occlusionCounts ds).1 = 0 →
        oget (calculateOcclusionStats ds) "occlusionRate" = .vNum 0)
    ∧ (∀ ds : List JsVal, 0 < (occlusionCounts ds).1 →
        oget (calculateOcclusionStats ds) "occlusionRate"
          = .vStr (toFixed2 (((occlusionCounts ds).2 : ℚ)
              / ((occlusionCounts ds).1 : ℚ) * 100)))
    ∧ (∀ ups ds : List JsVal, oget (getStats ups ds .vNull) "occlusionStats"
        = calculateOcclusionStats ds)
    ∧ (∀ (d : JsVal) (vs : List JsVal), oget d "vehicles" = .vArr vs →
        occlusionCounts [d]
          = (vs.length, (vs.filter (fun v => truthy (oget v "occluded"))).length))
    ∧ (getArr (JsObj.get mockResultsObj "vehicles")).all
        (fun v => !truthy (oget v "occluded")) = true := by
  obtain ⟨old, hfind, hdet⟩ := findById_some m detId det h1
  have hold : getDetectionById m detId = old :=
    getDetectionById_eq_of_find? m detId old hfind
  rw [hold] at hnd hveh
  have hpold : strictEq (oget old "id") detId = true := by
    have hp := List.find?_some hfind
    exact hp
  have hideq : oget old "id" = detId := strictEq_eq hpold
  have hself : strictEq detId detId = true := strictEq_self_of_true hpold
  obtain ⟨i, hfi, hgetD⟩ := findIndex_of_find? _ _ _ hfind
  have hlid : JsObj.lookupLast (ofields old) "id" = some detId :=
    lookupLast_id_of_match old detId hnd hideq h2
  -- the instance after the `processing` mutation, exactly as in the C9 run
  have hdid1 : JsObj.get (recomputeStep parseDate
      (jobProcessingSelf (detectionCtor old) tStart)) "id" = detId := by
    rw [recompute_get_ne _ _ _ (by decide) (by decide)]
    simp only [jobProcessingSelf]
    rw [JsObj.get_set, if_neg (by decide), JsObj.get_set, if_neg (by decide),
      detectionCtor_get_id, hideq]
  have hidt1 : truthy (JsObj.get (recomputeStep parseDate
      (jobProcessingSelf (detectionCtor old) tStart)) "id") = true := by
    rw [hdid1]; exact h2
  have hfi1 : findIndex (fun d => strictEq (oget d "id")
      (JsObj.get (recomputeStep parseDate
        (jobProcessingSelf (detectionCtor old) tStart)) "id")) (getDetections m)
      = some i := by
    rw [hdid1]; exact hfi
  have hsave1 := save_found parseDate
    (jobProcessingSelf (detectionCtor old) tStart) m freshId tStart i hidt1 hfi1
  have hm1id : oget (mergedRec m (saveData (recomputeStep parseDate
      (jobProcessingSelf (detectionCtor old) tStart))) tStart i) "id" = detId := by
    rw [mergedRec_get_absent _ _ _ _ "id" (lookupLast_saveData_id _) (by decide),
      hgetD .vUndef]
    exact hideq
  have hpm1 := strictEq_true_of_eq hm1id hself
  have hfiset := findIndex_set_self (fun d => strictEq (oget d "id") detId)
    (getDetections m) i _ hfi hpm1
  -- the id of the assigned-back instance survives via the last id binding
  have hgd2 : JsObj.get (JsObj.spread (recomputeStep parseDate
      (jobProcessingSelf (detectionCtor old) tStart))
      (ofields (mergedRec m (saveData (recomputeStep parseDate
        (jobProcessingSelf (detectionCtor old) tStart))) tStart i))) "id"
      = detId := by
    rw [JsObj.get_spread]
    simp only [mergedRec, ofields_vObj]
    rw [JsObj.lookupLast_set, if_neg (by decide), JsObj.lookupLast_spread,
      lookupLast_saveData_id, hgetD .vUndef, hlid]
  -- the completed instance written back by the success path
  have hdid4 : JsObj.get (recomputeStep parseDate (jobCompletedSelf
      (JsObj.spread (recomputeStep parseDate
        (jobProcessingSelf (detectionCtor old) tStart))
        (ofields (mergedRec m (saveData (recomputeStep parseDate
          (jobProcessingSelf (detectionCtor old) tStart))) tStart i)))
      mockResultsObj tEnd)) "id" = detId := by
    rw [recompute_get_ne _ _ _ (by decide) (by decide)]
    simp only [jobCompletedSelf]
    rw [JsObj.get_set, if_neg (by decide), JsObj.get_set, if_neg (by decide),
      JsObj.get_set, if_neg (by decide)]
    exact hgd2
  have hidt4 : truthy (JsObj.get (recomputeStep parseDate (jobCompletedSelf
      (JsObj.spread (recomputeStep parseDate
        (jobProcessingSelf (detectionCtor old) tStart))
        (ofields (mergedRec m (saveData (recomputeStep parseDate
          (jobProcessingSelf (detectionCtor old) tStart))) tStart i)))
      mockResultsObj tEnd)) "id") = true := by
    rw [hdid4]; exact h2
  have hfi4 : findIndex (fun d => strictEq (oget d "id")
      (JsObj.get (recomputeStep parseDate (jobCompletedSelf
        (JsObj.spread (recomputeStep parseDate
          (jobProcessingSelf (detectionCtor old) tStart))
          (ofields (mergedRec m (saveData (recomputeStep parseDate
            (jobProcessingSelf (detectionCtor old) tStart))) tStart i)))
        mockResultsObj tEnd)) "id"))
      (getDetections (Medium.good ((getDetections m).set i
        (mergedRec m (saveData (recomputeStep parseDate
          (jobProcessingSelf (detectionCtor old) tStart))) tStart i))))
      = some i := by
    rw [hdid4, getDetections_good]; exact hfiset
  have hsave4 := save_found parseDate
    (jobCompletedSelf
      (JsObj.spread (recomputeStep parseDate
        (jobProcessingSelf (detectionCtor old) tStart))
        (ofields (mergedRec m (saveData (recomputeStep parseDate
          (jobProcessingSelf (detectionCtor old) tStart))) tStart i)))
      mockResultsObj tEnd)
    (Medium.good ((getDetections m).set i (mergedRec m (saveData (recomputeStep
      parseDate (jobProcessingSelf (detectionCtor old) tStart))) tStart i)))
    freshId tEnd i hidt4 hfi4
  simp only [processVehicleDetection, h1]
  subst hdet
  rw [hsave1, hsave4]
  simp only [getDetections_good]
  have hm4id : oget (mergedRec (Medium.good ((getDetections m).set i
      (mergedRec m (saveData (recomputeStep parseDate
        (jobProcessingSelf (detectionCtor old) tStart))) tStart i)))
      (saveData (recomputeStep parseDate (jobCompletedSelf
        (JsObj.spread (recomputeStep parseDate
          (jobProcessingSelf (detectionCtor old) tStart))
          (ofields (mergedRec m (saveData (recomputeStep parseDate
            (jobProcessingSelf (detectionCtor old) tStart))) tStart i)))
        mockResultsObj tEnd))) tEnd i) "id" = detId := by
    rw [mergedRec_get_absent _ _ _ _ "id" (lookupLast_saveData_id _) (by decide),
      getDetections_good,
      set_getD_of_findIndex (fun d => strictEq (oget d "id") detId)
        (getDetections m) i _ .vUndef hfi]
    exact hm1id
  have hpm4 := strictEq_true_of_eq hm4id hself
  have hfind4 := find?_set_of_findIndex (fun d => strictEq (oget d "id") detId)
    _ i _ hfiset hpm4
  rw [getDetectionById_eq_of_find? _ _ _ hfind4]
  have hvehM : truthy (oget (mergedRec (Medium.good ((getDetections m).set i
      (mergedRec m (saveData (recomputeStep parseDate
        (jobProcessingSelf (detectionCtor old) tStart))) tStart i)))
      (saveData (recomputeStep parseDate (jobCompletedSelf
        (JsObj.spread (recomputeStep parseDate
          (jobProcessingSelf (detectionCtor old) tStart))
          (ofields (mergedRec m (saveData (recomputeStep parseDate
            (jobProcessingSelf (detectionCtor old) tStart))) tStart i)))
        mockResultsObj tEnd))) tEnd i) "vehicles") = false := by
    rw [mergedRec_get_absent _ _ _ _ "vehicles"
        (lookupLast_saveData_vehicles _) (by decide),
      getDetections_good,
      set_getD_of_findIndex (fun d => strictEq (oget d "id") detId)
        (getDetections m) i _ .vUndef hfi,
      mergedRec_get_absent _ _ _ _ "vehicles"
        (lookupLast_saveData_vehicles _) (by decide),
      hgetD .vUndef]
    exact hveh
  have hcounts := occlusionCounts_no_vehicles _ hvehM
  refine ⟨hvehM, hcounts, ?_, ?_, ?_, ?_, ?_, ?_, ?_⟩
  · rw [occlusionStats_occluded, hcounts]
    simp
  · exact occlusionStats_rate_zero _ (by rw [hcounts])
  · exact fun ds h => occlusionStats_rate_zero ds h
  · exact fun ds h => occlusionStats_rate_pos ds h
  · exact fun ups ds => getStats_occlusionStats ups ds
  · exact fun d vs h => occlusionCounts_single d vs h
  · rfl

/-- A stored pending Detection record for the C10 witness. -/
def c10Record : JsVal :=
  .vObj [("id", .vStr "d4"), ("userId", .vStr "u1"), ("uploadId", .vStr "up1"),
    ("status", .vStr "pending"), ("createdAt", .vStr "t0"), ("updatedAt", .vStr "t0")]

/-- Witness for the C10 theorem: a pending record run through the successful
pipeline still has no top-level vehicles, so the statistics over it are all
zero and the rate is the number 0. -/
theorem occlusion_stats_ignore_pipeline_vehicles_witness :
    truthy (oget (getDetectionById (processVehicleDetection (fun _ => 0)
        (Medium.good [c10Record]) (.vStr "d4") (.ok mockResultsObj)
        "t1" "t2" "t3" "f1" .success) (.vStr "d4")) "vehicles") = false
    ∧ occlusionCounts [getDetectionById (processVehicleDetection (fun _ => 0)
        (Medium.good [c10Record]) (.vStr "d4") (.ok mockResultsObj)
        "t1" "t2" "t3" "f1" .success) (.vStr "d4")] = (0, 0)
    ∧ oget (calculateOcclusionStats [getDetectionById (processVehicleDetection
        (fun _ => 0) (Medium.good [c10Record]) (.vStr "d4") (.ok mockResultsObj)
        "t1" "t2" "t3" "f1" .success) (.vStr "d4")]) "occludedVehicles" = .vNum 0
    ∧ oget (calculateOcclusionStats [getDetectionById (processVehicleDetection
        (fun _ => 0) (Medium.good [c10Record]) (.vStr "d4") (.ok mockResultsObj)
        "t1" "t2" "t3" "f1" .success) (.vStr "d4")]) "occlusionRate" = .vNum 0 := by
  have h := occlusion_stats_ignore_pipeline_vehicles (fun _ => 0)
    (Medium.good [c10Record]) (.vStr "d4") (detectionCtor c10Record)
    "t1" "t2" "t3" "f1" rfl rfl (by decide) rfl
  exact ⟨h.1, h.2.1, h.2.2.1, h.2.2.2.1⟩

end VehicleOcclusion
